import Mathlib

/-!
Verification of the TrendScouter data-access layer (src/lib/api.ts).

The TypeScript source is shallowly embedded: JS values that flow through the
cache are modelled by `JsValue`, JS string operations (`startsWith`,
`includes`, `split`) by character-list operations with the same semantics,
the module-level `Map` cache by an association list threaded explicitly,
`Date.now()` by an explicit `now : Nat` parameter (milliseconds), and the
retrying HTTP client by a step function over an explicit timer/clock state
driven by an oracle describing each attempt's outcome.
-/

namespace TrendScouter

/-- Model of a JSON/JS value as stored in the cache and returned by fetches.
Record payloads are opaque to the api layer (it never inspects fields), so
objects keep their fields as an association list. -/
inductive JsValue where
  | null : JsValue
  | bool (b : Bool) : JsValue
  | num (n : Int) : JsValue
  | str (s : String) : JsValue
  | arr (elems : List JsValue) : JsValue

/-- JS truthiness of a value (`if (v)`): null, false, 0 and "" are falsy;
arrays are always truthy. -/
def jsTruthy : JsValue → Bool
  | JsValue.null => false
  | JsValue.bool b => b
  | JsValue.num n => n != 0
  | JsValue.str s => s != ""
  | JsValue.arr _ => true

/-- Model of a JS `Error` object: a `name` and a `message`. -/
structure JsError where
  name : String
  message : String
  deriving DecidableEq, Repr

/-- JS `s.startsWith(pat)`. -/
def jsStartsWith (s pat : String) : Bool := decide (pat.data <+: s.data)

/-- JS `s.includes(pat)` (substring containment). -/
def jsIncludes (s pat : String) : Bool := decide (pat.data <:+: s.data)

/-- JS `s.split(sep)` on a single separator character, at the level of
character lists: `splitChar '/' "/a/b".data = [[], ['a'], ['b']]`. -/
def splitChar (c : Char) : List Char → List (List Char)
  | [] => [[]]
  | x :: xs =>
    if x = c then [] :: splitChar c xs
    else
      match splitChar c xs with
      | [] => [[x]]
      | h :: t => (x :: h) :: t

/-- JS `endpoint.split('/')[2]`, with `""` for an out-of-range index (the JS
`undefined` compares unequal to every fixture identifier, as does `""`). -/
def pathSeg2 (e : String) : String := String.mk ((splitChar '/' e.data).getD 2 [])

/-- Fuel-driven helper for decimal digits; `fuel > n` makes it total on `n`
(the argument shrinks by a factor of 10 each step). Structural recursion is
used so that concrete values reduce inside the kernel. -/
def natDigitsAux : Nat → Nat → List Char
  | 0, _ => []
  | fuel + 1, n =>
    if n < 10 then [Char.ofNat (48 + n)]
    else natDigitsAux fuel (n / 10) ++ [Char.ofNat (48 + n % 10)]

/-- Decimal digit characters of a natural number, most significant first;
models JS number-to-string interpolation for naturals. -/
def natDigits (n : Nat) : List Char := natDigitsAux (n + 1) n

/-- Decimal string of a natural number (JS template interpolation). -/
def natToString (n : Nat) : String := String.mk (natDigits n)

/-! ### Constants (api.ts lines 12-14) -/

def API_TIMEOUT : Nat := 10000

def MAX_RETRIES : Nat := 2

def CACHE_DURATION : Nat := 5 * 60 * 1000

/-! ### Cache store (api.ts lines 17, 29-46) -/

/-- One cache entry: payload plus capture timestamp (`{ data, timestamp }`). -/
structure CacheEntry where
  data : JsValue
  timestamp : Nat

/-- The module-level `Map<string, {data, timestamp}>`, as an association
list with unique keys (Map.set replaces). -/
abbrev Cache := List (String × CacheEntry)

/-- JS `cache.get(key)` (first binding of the key). -/
def cacheFind (c : Cache) (k : String) : Option CacheEntry :=
  match c with
  | [] => none
  | (k2, e) :: rest => if k2 = k then some e else cacheFind rest k

/-- JS `cache.delete(key)`. -/
def cacheDelete (c : Cache) (k : String) : Cache :=
  match c with
  | [] => []
  | (k2, e) :: rest => if k2 = k then cacheDelete rest k else (k2, e) :: cacheDelete rest k

/-- Embeds `getCacheKey` (api.ts line 29). -/
def getCacheKey (endpoint : String) : String := "api:" ++ endpoint

/-- Embeds `getCachedData` (api.ts lines 31-42). Returns the JS return value
(`null` on a miss or an expired entry) together with the cache after the
call (lazy eviction of an expired entry happens inside the same call). -/
def getCachedData (c : Cache) (now : Nat) (key : String) : JsValue × Cache :=
  match cacheFind c key with
  | none => (JsValue.null, c)
  | some cached =>
    if now - cached.timestamp > CACHE_DURATION then (JsValue.null, cacheDelete c key)
    else (cached.data, c)

/-- Embeds `setCachedData` (api.ts lines 44-46): `cache.set(key, { data,
timestamp: Date.now() })`. -/
def setCachedData (c : Cache) (key : String) (data : JsValue) (now : Nat) : Cache :=
  (key, ⟨data, now⟩) :: cacheDelete c key

/-! ### Mock fixtures and provider (api.ts lines 6-10, 49-80) -/

/-- Modelled from the spec: the fixture file src/mocks/trends.json is not
included under src/; per the spec the trends fixture holds trend records
(id, name, ...) and serving it truncated to 3 yields exactly 3 records, so
it is modelled as a list of at least 3 opaque record values. -/
def mockTrends : List JsValue :=
  [JsValue.str "trend-defense-tech", JsValue.str "trend-climate-solutions",
   JsValue.str "trend-ai-agents", JsValue.str "trend-space-economy",
   JsValue.str "trend-biotech"]

/-- Modelled from the spec: fixture src/mocks/subtrends-defense-tech.json
(absent from src/), an array of subtrend records for the defense-tech trend. -/
def mockSubtrendsDefenseTech : JsValue :=
  JsValue.arr [JsValue.str "subtrend-military-drones", JsValue.str "subtrend-cyber-defense"]

/-- Modelled from the spec: fixture src/mocks/subtrends-climate-solutions.json
(absent from src/), an array of subtrend records for the climate-solutions trend. -/
def mockSubtrendsClimateSolutions : JsValue :=
  JsValue.arr [JsValue.str "subtrend-carbon-capture", JsValue.str "subtrend-grid-storage"]

/-- Modelled from the spec: fixture src/mocks/startups-military-drones.json
(absent from src/), an array of startup records for the military-drones subtrend. -/
def mockStartupsMilitaryDrones : JsValue :=
  JsValue.arr [JsValue.str "startup-anduril-like", JsValue.str "startup-swarm-like"]

/-- Modelled from the spec: fixture src/mocks/startups-carbon-capture.json
(absent from src/), an array of startup records for the carbon-capture subtrend. -/
def mockStartupsCarbon : JsValue :=
  JsValue.arr [JsValue.str "startup-dac-like", JsValue.str "startup-mineralize-like"]

/-- Embeds `getMockData` (api.ts lines 49-80), minus the artificial 200-500ms
delay (which only shifts wall-clock time and is not observable by any
routing decision). `Except.error` models `throw new Error(...)`. -/
def getMockData (endpoint : String) : Except JsError JsValue :=
  if jsStartsWith endpoint "/trends" && (jsIncludes endpoint "limit=3" || endpoint == "/trends") then
    Except.ok (JsValue.arr (mockTrends.take 3))
  else if jsIncludes endpoint "/subtrends" && pathSeg2 endpoint == "defense-tech" then
    Except.ok mockSubtrendsDefenseTech
  else if jsIncludes endpoint "/subtrends" && pathSeg2 endpoint == "climate-solutions" then
    Except.ok mockSubtrendsClimateSolutions
  else if jsIncludes endpoint "/startups" && pathSeg2 endpoint == "military-drones" then
    Except.ok mockStartupsMilitaryDrones
  else if jsIncludes endpoint "/startups" && pathSeg2 endpoint == "carbon-capture" then
    Except.ok mockStartupsCarbon
  else
    Except.error ⟨"Error", "Mock data not found for endpoint: " ++ endpoint⟩

/-! ### Config resolver (api.ts lines 20-26) -/

/-- Ambient settings read on every call: the build-time env value, and the
two localStorage keys. `none` models JS `undefined`/`null`. -/
structure Settings where
  envBaseUrl : Option String
  lsApiBaseUrl : Option String
  lsUseMocks : Option String
  deriving DecidableEq, Repr

/-- JS truthiness of a `string | null | undefined` value. -/
def optTruthy : Option String → Bool
  | none => false
  | some s => s != ""

/-- Embeds `getApiBaseUrl` (api.ts lines 20-22):
`env.VITE_API_BASE_URL || localStorage.getItem('apiBaseUrl') || null`. -/
def getApiBaseUrl (st : Settings) : Option String :=
  if optTruthy st.envBaseUrl then st.envBaseUrl
  else if optTruthy st.lsApiBaseUrl then st.lsApiBaseUrl
  else none

/-- Embeds `shouldUseMocks` (api.ts lines 24-26):
`!getApiBaseUrl() || localStorage.getItem('useMocks') === 'true'`. -/
def shouldUseMocks (st : Settings) : Bool :=
  !(optTruthy (getApiBaseUrl st)) || st.lsUseMocks == some "true"

/-! ### Retrying HTTP client (api.ts lines 83-126)

The client is embedded as a deterministic function of an oracle
`Nat → FetchOutcome` giving, for each loop iteration (attempt index), how the
underlying `fetch` would behave if left undisturbed. Time is explicit in
milliseconds starting at 0 (the moment `fetchWithRetry` is entered), the
single `setTimeout(() => controller.abort(), API_TIMEOUT)` is the boolean
`timerArmed` together with the fixed deadline `API_TIMEOUT`, and
`clearTimeout` sets `timerArmed := false`. -/

/-- Behavior of one underlying `fetch` call, as scheduled by the environment:
a response with a status delivered after `dur` ms, a network-level rejection
after `dur` ms, or a hang (never settles). -/
inductive FetchOutcome where
  | response (status : Nat) (statusText : String) (dur : Nat) : FetchOutcome
  | networkError (msg : String) (dur : Nat) : FetchOutcome
  | hang : FetchOutcome
  deriving DecidableEq, Repr

/-- An HTTP response as far as the client inspects it: `status` and
`statusText` (`response.ok` is `200 <= status <= 299`). -/
structure Response where
  status : Nat
  statusText : String
  deriving DecidableEq, Repr

/-- The `AbortError` produced when the shared timeout signal fires. -/
def abortError : JsError := ⟨"AbortError", "The operation was aborted."⟩

/-- The error thrown for a non-ok response (api.ts line 103):
`new Error(\x7bHTTP ${response.status}: ${response.statusText}\x7d)`. -/
def httpError (status : Nat) (statusText : String) : JsError :=
  ⟨"Error", "HTTP " ++ natToString status ++ ": " ++ statusText⟩

/-- The defensive fallback error (api.ts line 125): `new Error('Request failed')`. -/
def requestFailedError : JsError := ⟨"Error", "Request failed"⟩

/-- One `fetch(url, {signal})` call at absolute time `now` with the shared
abort timer in state `armed`. Returns `none` when the call never settles
(hang with no armed timer), otherwise the settle time, the timer state after
the call (a delivered response runs `clearTimeout` at api.ts line 100, before
the `response.ok` check), and the settled value: `Except.ok` for an ok
response, `Except.error` for the thrown `HTTP status` error, network
rejection, or abort. -/
def doFetch (outcome : FetchOutcome) (now : Nat) (armed : Bool) :
    Option (Nat × Bool × Except JsError Response) :=
  if armed then
    if API_TIMEOUT ≤ now then
      some (now, true, Except.error abortError)
    else
      match outcome with
      | FetchOutcome.response s t dur =>
        if now + dur ≤ API_TIMEOUT then
          some (now + dur, false,
            if 200 ≤ s ∧ s ≤ 299 then Except.ok ⟨s, t⟩ else Except.error (httpError s t))
        else some (API_TIMEOUT, true, Except.error abortError)
      | FetchOutcome.networkError m dur =>
        if now + dur ≤ API_TIMEOUT then some (now + dur, true, Except.error ⟨"TypeError", m⟩)
        else some (API_TIMEOUT, true, Except.error abortError)
      | FetchOutcome.hang => some (API_TIMEOUT, true, Except.error abortError)
  else
    match outcome with
    | FetchOutcome.response s t dur =>
      some (now + dur, false,
        if 200 ≤ s ∧ s ≤ 299 then Except.ok ⟨s, t⟩ else Except.error (httpError s t))
    | FetchOutcome.networkError m dur => some (now + dur, false, Except.error ⟨"TypeError", m⟩)
    | FetchOutcome.hang => none

/-- Observable state threaded through the retry loop: the clock, the shared
timer, the captured `lastError`, the number of `fetch` calls issued, and the
list of backoff sleeps performed (in ms). -/
structure RetryState where
  now : Nat
  timerArmed : Bool
  lastError : Option JsError
  fetchCalls : Nat
  sleeps : List Nat
  deriving DecidableEq, Repr

/-- Result of `fetchWithRetry`: a returned response, a thrown error, or
divergence (an attempt that hangs with no armed timer never settles). -/
inductive FetchResult where
  | ok (resp : Response) (st : RetryState) : FetchResult
  | thrown (e : JsError) (st : RetryState) : FetchResult
  | diverge (st : RetryState) : FetchResult
  deriving DecidableEq, Repr

/-- The retry loop of `fetchWithRetry` (api.ts lines 89-122) plus the final
throw (lines 124-125). `fuel` counts the loop iterations still allowed
(`MAX_RETRIES + 1 - attempt`); when it reaches 0 the loop has exhausted all
attempts and line 125 throws `lastError || new Error('Request failed')`.
A non-retryable error (`AbortError` or a message containing `HTTP 4`,
lines 111-115) breaks out and is rethrown; otherwise, if `attempt <
MAX_RETRIES`, the loop sleeps `2 ** attempt * 1000` ms (line 119). -/
def fetchLoop (oracle : Nat → FetchOutcome) : Nat → Nat → RetryState → FetchResult
  | 0, _, st => FetchResult.thrown (st.lastError.getD requestFailedError) st
  | fuel + 1, attempt, st =>
    match doFetch (oracle attempt) st.now st.timerArmed with
    | none => FetchResult.diverge { st with fetchCalls := st.fetchCalls + 1 }
    | some (t2, armed2, Except.ok r) =>
      FetchResult.ok r { st with now := t2, timerArmed := armed2, fetchCalls := st.fetchCalls + 1 }
    | some (t2, armed2, Except.error e) =>
      let st2 : RetryState :=
        { now := t2, timerArmed := armed2, lastError := some e,
          fetchCalls := st.fetchCalls + 1, sleeps := st.sleeps }
      if e.name == "AbortError" || jsIncludes e.message "HTTP 4" then
        FetchResult.thrown e st2
      else if attempt < MAX_RETRIES then
        fetchLoop oracle fuel (attempt + 1)
          { st2 with now := st2.now + 2 ^ attempt * 1000,
                     sleeps := st2.sleeps ++ [2 ^ attempt * 1000] }
      else
        fetchLoop oracle fuel (attempt + 1) st2

/-- Embeds `fetchWithRetry` (api.ts lines 83-126): arms the shared timer once
and runs the loop for attempts `0 .. MAX_RETRIES`. -/
def fetchWithRetry (oracle : Nat → FetchOutcome) : FetchResult :=
  fetchLoop oracle (MAX_RETRIES + 1) 0
    { now := 0, timerArmed := true, lastError := none, fetchCalls := 0, sleeps := [] }

/-! ### Retry-client classification helpers -/

/-- Scheduled duration of an attempt outcome (0 for a hang, which never
settles on its own). -/
def outcomeDur : FetchOutcome → Nat
  | FetchOutcome.response _ _ d => d
  | FetchOutcome.networkError _ d => d
  | FetchOutcome.hang => 0

/-- The error an undisturbed attempt outcome produces inside the loop: the
`HTTP status: text` error for a delivered non-ok response, the rejection for
a network error. -/
def deliveredError : FetchOutcome → JsError
  | FetchOutcome.response s t _ => httpError s t
  | FetchOutcome.networkError m _ => ⟨"TypeError", m⟩
  | FetchOutcome.hang => abortError

/-- Timer state after an attempt settles: a delivered response clears the
shared timer (api.ts line 100 runs before the ok-check), a rejection leaves
it as is. -/
def armedAfter (outcome : FetchOutcome) (armed : Bool) : Bool :=
  match outcome with
  | FetchOutcome.response _ _ _ => false
  | FetchOutcome.networkError _ _ => armed
  | FetchOutcome.hang => armed

/-- An attempt outcome the loop retries: a delivered non-ok response whose
error message does not contain `HTTP 4`, or a network rejection whose
message does not contain `HTTP 4` (the loop's non-retry test, lines 111-115). -/
def isRetryableFailure : FetchOutcome → Prop
  | FetchOutcome.response s t _ =>
    ¬(200 ≤ s ∧ s ≤ 299) ∧ jsIncludes (httpError s t).message "HTTP 4" = false
  | FetchOutcome.networkError m _ => jsIncludes m "HTTP 4" = false
  | FetchOutcome.hang => False

/-- An outcome that never delivers a response (network rejection or hang):
while only these occur the shared timer is never cleared. -/
def isNoResponse : FetchOutcome → Prop
  | FetchOutcome.response _ _ _ => False
  | FetchOutcome.networkError _ _ => True
  | FetchOutcome.hang => True

/-! ### Query functions (api.ts lines 129-240) -/

/-- The error thrown when the non-mock branch finds no base URL
(api.ts lines 146, 175, 204): `new Error('API base URL not configured')`. -/
def configError : JsError := ⟨"Error", "API base URL not configured"⟩

/-- The wrapper applied in each query function's catch block (api.ts lines
155, 184, 213): a new `Error` whose message names the failed resource. -/
def wrapFail (res : String) (e : JsError) : JsError :=
  ⟨"Error", "Failed to fetch " ++ res ++ ": " ++ e.message⟩

/-- Observable outcome of one query-function call: its returned payload or
thrown error, the cache afterwards, whether the Mock Provider was consulted,
whether the network client was invoked, and whether the `'API base URL not
configured'` branch was reached. -/
structure QueryResult where
  result : Except JsError JsValue
  cache : Cache
  usedMock : Bool
  usedNetwork : Bool
  hitConfigBranch : Bool

/-- The endpoint string built by `fetchTrends` (api.ts line 130):
`/trends${limit ? \x7b?limit=${limit}\x7d : ''}`; a missing or falsy (0) limit
contributes nothing. -/
def trendsEndpoint (limit : Option Nat) : String :=
  "/trends" ++ (match limit with
    | some n => if n != 0 then "?limit=" ++ natToString n else ""
    | none => "")

/-- The check-cache / resolve-mode / fetch / populate-cache / wrap-error
pattern shared verbatim by the bodies of `fetchTrends`, `fetchSubtrends` and
`fetchStartups` (api.ts lines 129-157, 159-186, 188-215), parameterized by
the endpoint and the resource name used in the wrapped error message. `net`
is the combined outcome of `fetchWithRetry` plus `response.json()` in the
non-mock branch (an `Except.error` covers network, HTTP and decode failures
alike). -/
def queryCore (st : Settings) (c : Cache) (now : Nat) (endpoint res : String)
    (net : Except JsError JsValue) : QueryResult :=
  let cacheKey := getCacheKey endpoint
  let got := getCachedData c now cacheKey
  if jsTruthy got.1 then ⟨Except.ok got.1, got.2, false, false, false⟩
  else if shouldUseMocks st then
    match getMockData endpoint with
    | Except.ok d => ⟨Except.ok d, setCachedData got.2 cacheKey d now, true, false, false⟩
    | Except.error e => ⟨Except.error (wrapFail res e), got.2, true, false, false⟩
  else
    match getApiBaseUrl st with
    | none => ⟨Except.error (wrapFail res configError), got.2, false, false, true⟩
    | some _ =>
      match net with
      | Except.ok d => ⟨Except.ok d, setCachedData got.2 cacheKey d now, false, true, false⟩
      | Except.error e => ⟨Except.error (wrapFail res e), got.2, false, true, false⟩

/-- Embeds `fetchTrends` (api.ts lines 129-157). -/
def fetchTrends (st : Settings) (c : Cache) (now : Nat) (limit : Option Nat)
    (net : Except JsError JsValue) : QueryResult :=
  queryCore st c now (trendsEndpoint limit) "trends" net

/-- The endpoint string built by `fetchSubtrends` (api.ts line 160):
`/trends/${trendId}/subtrends`. -/
def subtrendsEndpoint (trendId : String) : String :=
  "/trends/" ++ trendId ++ "/subtrends"

/-- Embeds `fetchSubtrends` (api.ts lines 159-186). -/
def fetchSubtrends (st : Settings) (c : Cache) (now : Nat) (trendId : String)
    (net : Except JsError JsValue) : QueryResult :=
  queryCore st c now (subtrendsEndpoint trendId) "subtrends" net

/-- The endpoint string built by `fetchStartups` (api.ts line 189):
`/subtrends/${subtrendId}/startups?limit=${limit}` (limit defaults to 3 and
is always appended, even when 0). -/
def startupsEndpoint (subtrendId : String) (limit : Nat) : String :=
  "/subtrends/" ++ subtrendId ++ "/startups?limit=" ++ natToString limit

/-- Embeds `fetchStartups` (api.ts lines 188-215). -/
def fetchStartups (st : Settings) (c : Cache) (now : Nat) (subtrendId : String)
    (limit : Nat) (net : Except JsError JsValue) : QueryResult :=
  queryCore st c now (startupsEndpoint subtrendId limit) "startups" net

/-- Outcome of `testConnection` (api.ts lines 218-240): the returned record
`{ success, latency?, error? }` plus the config-branch flag. -/
structure ConnResult where
  success : Bool
  latency : Option Nat
  error : Option String
  hitConfigBranch : Bool
  deriving DecidableEq, Repr

/-- Embeds `testConnection` (api.ts lines 218-240). `elapsed` stands for
`Date.now() - startTime` at the point the latency is read; `net` is the
outcome of the non-mock probe request. -/
def testConnection (st : Settings) (elapsed : Nat) (net : Except JsError Unit) : ConnResult :=
  if shouldUseMocks st then
    match getMockData "/trends?limit=1" with
    | Except.ok _ => ⟨true, some elapsed, none, false⟩
    | Except.error e => ⟨false, none, some e.message, false⟩
  else
    match getApiBaseUrl st with
    | none => ⟨false, none, some "API base URL not configured", true⟩
    | some _ =>
      match net with
      | Except.ok _ => ⟨true, some elapsed, none, false⟩
      | Except.error e => ⟨false, none, some e.message, false⟩

/-- Embeds `clearCache` (api.ts lines 242-244): `cache.clear()`. -/
def clearCache (_c : Cache) : Cache := []

/-! ### Reusable settings values -/

/-- Settings with no base URL anywhere: mock mode by default. -/
def mockSettings : Settings := ⟨none, none, none⟩

/-- Settings with a configured base URL and no forced-mock flag: network mode. -/
def netSettings : Settings := ⟨some "https://api.example.com", none, none⟩

/-! ### Helper lemmas about the string primitives -/

/-- Decomposition of an occurrence inside an append: the pattern occurs in
the left part, in the right part, or straddles the boundary, splitting at
position `k` into a suffix of the left part and a prefix of the right part. -/
theorem infix_split {α : Type} {p a b : List α} (h : p <:+: a ++ b) :
    p <:+: a ∨ p <:+: b ∨
      ∃ k, 0 < k ∧ k < p.length ∧ p.take k <:+ a ∧ p.drop k <+: b := by
  obtain ⟨s, t, hst⟩ := h
  rw [List.append_assoc] at hst
  rcases List.append_eq_append_iff.mp hst with ⟨a1, ha, hpt⟩ | ⟨c1, _, hb⟩
  · rcases List.append_eq_append_iff.mp hpt with ⟨a2, ha2, _⟩ | ⟨c2, hp, hb2⟩
    · left
      exact ⟨s, a2, by rw [ha, ha2, List.append_assoc]⟩
    · by_cases hc : c2 = []
      · subst hc
        left
        rw [List.append_nil] at hp
        subst hp
        exact List.IsSuffix.isInfix ⟨s, by rw [ha]⟩
      · by_cases ha1 : a1 = []
        · subst ha1
          right; left
          rw [List.nil_append] at hp
          subst hp
          exact List.IsPrefix.isInfix ⟨t, by rw [hb2]⟩
        · right; right
          refine ⟨a1.length, List.length_pos.mpr ha1, ?_, ?_, ?_⟩
          · have hlen : p.length = a1.length + c2.length := by rw [hp, List.length_append]
            have hc2 : 0 < c2.length := List.length_pos.mpr hc
            omega
          · rw [hp, List.take_left]
            exact ⟨s, by rw [ha]⟩
          · rw [hp, List.drop_left]
            exact ⟨t, by rw [hb2]⟩
  · right; left
    exact ⟨c1, t, by rw [hb, List.append_assoc]⟩

/-- Characters produced by `natDigitsAux` are decimal digits. -/
theorem natDigitsAux_mem {fuel n : Nat} {c : Char} (h : c ∈ natDigitsAux fuel n) :
    48 ≤ c.toNat ∧ c.toNat ≤ 57 := by
  induction fuel generalizing n with
  | zero => simp [natDigitsAux] at h
  | succ f ih =>
    rw [natDigitsAux] at h
    split at h
    · next h10 =>
        simp only [List.mem_singleton] at h
        subst h
        interval_cases n <;> exact ⟨by decide, by decide⟩
    · next h10 =>
        rcases List.mem_append.mp h with h1 | h2
        · exact ih h1
        · simp only [List.mem_singleton] at h2
          subst h2
          have hm : n % 10 < 10 := Nat.mod_lt _ (by omega)
          generalize n % 10 = m at hm ⊢
          interval_cases m <;> exact ⟨by decide, by decide⟩

/-- Characters of the decimal representation are decimal digits. -/
theorem natDigits_mem {n : Nat} {c : Char} (h : c ∈ natDigits n) :
    48 ≤ c.toNat ∧ c.toNat ≤ 57 :=
  natDigitsAux_mem h

/-- The slash character never occurs in a decimal representation. -/
theorem slash_not_mem_natDigits (n : Nat) : ('/' : Char) ∉ natDigits n := by
  intro h
  have := natDigits_mem h
  have h47 : ('/' : Char).toNat = 47 := rfl
  omega

/-- Splitting a list that does not contain the separator gives it back whole. -/
theorem splitChar_not_mem {c : Char} {xs : List Char} (h : c ∉ xs) :
    splitChar c xs = [xs] := by
  induction xs with
  | nil => rfl
  | cons x xs ih =>
    have hx : ¬ x = c := fun e => h (e ▸ List.mem_cons_self x xs)
    have hxs : c ∉ xs := fun e => h (List.mem_cons_of_mem x e)
    rw [splitChar, if_neg hx, ih hxs]

/-- Splitting past a separator-free chunk peels the chunk off whole. -/
theorem splitChar_append_cons {c : Char} {xs ys : List Char} (h : c ∉ xs) :
    splitChar c (xs ++ c :: ys) = xs :: splitChar c ys := by
  induction xs with
  | nil => rw [List.nil_append, splitChar, if_pos rfl]
  | cons x xs ih =>
    have hx : ¬ x = c := fun e => h (e ▸ List.mem_cons_self x xs)
    have hxs : c ∉ xs := fun e => h (List.mem_cons_of_mem x e)
    rw [List.cons_append, splitChar, if_neg hx, ih hxs]

/-! ### Shape lemmas for the three endpoint strings -/

/-- Character-level shape of `/trends/{id}/subtrends`. -/
theorem subtrendsEndpoint_data (id : String) :
    (subtrendsEndpoint id).data
      = '/' :: ("trends".data ++ ('/' :: (id.data ++ ('/' :: "subtrends".data)))) := by
  simp [subtrendsEndpoint, String.data_append]

/-- Character-level shape of `/subtrends/{id}/startups?limit={limit}`. -/
theorem startupsEndpoint_data (id : String) (lim : Nat) :
    (startupsEndpoint id lim).data
      = '/' :: ("subtrends".data
          ++ ('/' :: (id.data ++ ('/' :: ("startups?limit=".data ++ natDigits lim))))) := by
  simp [startupsEndpoint, String.data_append, natToString]

/-- Character-level shape of `/trends?limit={n}` for a truthy limit `n`. -/
theorem trendsEndpoint_data (n : Nat) (hn : n ≠ 0) :
    (trendsEndpoint (some n)).data = "/trends?limit=".data ++ natDigits n := by
  simp [trendsEndpoint, String.data_append, natToString, bne_iff_ne, hn]

/-- The second path segment of `/trends/{id}/subtrends` is `id` when `id`
contains no slash. -/
theorem pathSeg2_subtrendsEndpoint (id : String) (h : ('/' : Char) ∉ id.data) :
    pathSeg2 (subtrendsEndpoint id) = id := by
  unfold pathSeg2
  rw [subtrendsEndpoint_data, splitChar, if_pos rfl,
    splitChar_append_cons (by decide), splitChar_append_cons h,
    splitChar_not_mem (by decide)]
  rfl

/-- The second path segment of `/subtrends/{id}/startups?limit={n}` is `id`
when `id` contains no slash (whatever the digits of `n` contain). -/
theorem pathSeg2_startupsEndpoint (id : String) (lim : Nat) (h : ('/' : Char) ∉ id.data) :
    pathSeg2 (startupsEndpoint id lim) = id := by
  unfold pathSeg2
  rw [startupsEndpoint_data, splitChar, if_pos rfl,
    splitChar_append_cons (by decide), splitChar_append_cons h]
  rfl

/-- `/trends/{id}/subtrends` starts with `/trends`. -/
theorem startsWith_trends_subtrendsEndpoint (id : String) :
    jsStartsWith (subtrendsEndpoint id) "/trends" = true := by
  simp only [jsStartsWith, decide_eq_true_eq, subtrendsEndpoint_data]
  exact ⟨'/' :: (id.data ++ ('/' :: "subtrends".data)), rfl⟩

/-- `/subtrends/{id}/startups?limit={n}` does not start with `/trends`. -/
theorem not_startsWith_trends_startupsEndpoint (id : String) (lim : Nat) :
    jsStartsWith (startupsEndpoint id lim) "/trends" = false := by
  simp only [jsStartsWith, decide_eq_false_iff_not, startupsEndpoint_data]
  intro hpre
  obtain ⟨t, ht⟩ := hpre
  have h2 : some 't' = some 's' := congrArg (fun l => l.tail.head?) ht
  exact absurd h2 (by decide)

/-- `/trends?limit={n}` starts with `/trends`. -/
theorem startsWith_trends_trendsEndpoint (n : Nat) (hn : n ≠ 0) :
    jsStartsWith (trendsEndpoint (some n)) "/trends" = true := by
  simp only [jsStartsWith, decide_eq_true_eq, trendsEndpoint_data n hn]
  exact ⟨'?' :: ("limit=".data ++ natDigits n), rfl⟩

/-- `/trends/{id}/subtrends` contains `/subtrends`. -/
theorem includes_subtrends_subtrendsEndpoint (id : String) :
    jsIncludes (subtrendsEndpoint id) "/subtrends" = true := by
  simp only [jsIncludes, decide_eq_true_eq, subtrendsEndpoint_data]
  refine List.IsSuffix.isInfix ⟨'/' :: ("trends".data ++ ('/' :: id.data)), ?_⟩
  simp

/-- `/subtrends/{id}/startups?limit={n}` contains `/subtrends` (it is a
prefix: this is what misroutes startups requests, see C6). -/
theorem includes_subtrends_startupsEndpoint (id : String) (lim : Nat) :
    jsIncludes (startupsEndpoint id lim) "/subtrends" = true := by
  simp only [jsIncludes, decide_eq_true_eq, startupsEndpoint_data]
  refine List.IsPrefix.isInfix
    ⟨'/' :: (id.data ++ ('/' :: ("startups?limit=".data ++ natDigits lim))), ?_⟩
  simp

/-- `/subtrends/{id}/startups?limit={n}` contains `/startups`. -/
theorem includes_startups_startupsEndpoint (id : String) (lim : Nat) :
    jsIncludes (startupsEndpoint id lim) "/startups" = true := by
  simp only [jsIncludes, decide_eq_true_eq, startupsEndpoint_data]
  refine ⟨'/' :: ("subtrends".data ++ ('/' :: id.data)),
    "?limit=".data ++ natDigits lim, ?_⟩
  simp

/-- If `id` itself does not contain `limit=3`, neither does
`/trends/{id}/subtrends`: an occurrence cannot sit inside the constant parts
nor straddle a boundary. -/
theorem not_includes_limit3_subtrendsEndpoint (id : String)
    (hid : jsIncludes id "limit=3" = false) :
    jsIncludes (subtrendsEndpoint id) "limit=3" = false := by
  simp only [jsIncludes, decide_eq_false_iff_not] at hid ⊢
  intro h
  have hshape : (subtrendsEndpoint id).data
      = "/trends/".data ++ (id.data ++ "/subtrends".data) := by
    rw [subtrendsEndpoint_data]
    rfl
  rw [hshape] at h
  rcases infix_split h with h1 | h2 | ⟨k, hk0, hkl, htake, _⟩
  · exact absurd h1 (by decide)
  · rcases infix_split h2 with h3 | h4 | ⟨k, hk0, hkl, _, hdrop⟩
    · exact hid h3
    · exact absurd h4 (by decide)
    · rw [show ("limit=3".data).length = 7 from rfl] at hkl
      interval_cases k <;> exact absurd hdrop (by decide)
  · rw [show ("limit=3".data).length = 7 from rfl] at hkl
    interval_cases k <;> exact absurd htake (by decide)

/-- A pattern containing a slash cannot occur inside decimal digits. -/
theorem not_infix_digits_of_slash_mem {p : List Char} (n : Nat)
    (hp : ('/' : Char) ∈ p) : ¬ p <:+: natDigits n := by
  intro h
  exact slash_not_mem_natDigits n (h.subset hp)

/-- `/trends?limit={n}` does not contain `/subtrends`: the pattern is not in
the constant part, cannot straddle the boundary, and contains a slash so it
is not inside the digits. -/
theorem not_includes_subtrends_trendsEndpoint (n : Nat) (hn : n ≠ 0) :
    jsIncludes (trendsEndpoint (some n)) "/subtrends" = false := by
  simp only [jsIncludes, decide_eq_false_iff_not]
  intro h
  rw [trendsEndpoint_data n hn] at h
  rcases infix_split h with h1 | h2 | ⟨k, hk0, hkl, htake, _⟩
  · exact absurd h1 (by decide)
  · exact not_infix_digits_of_slash_mem n (by decide) h2
  · rw [show ("/subtrends".data).length = 10 from rfl] at hkl
    interval_cases k <;> exact absurd htake (by decide)

/-- `/trends?limit={n}` does not contain `/startups`. -/
theorem not_includes_startups_trendsEndpoint (n : Nat) (hn : n ≠ 0) :
    jsIncludes (trendsEndpoint (some n)) "/startups" = false := by
  simp only [jsIncludes, decide_eq_false_iff_not]
  intro h
  rw [trendsEndpoint_data n hn] at h
  rcases infix_split h with h1 | h2 | ⟨k, hk0, hkl, htake, _⟩
  · exact absurd h1 (by decide)
  · exact not_infix_digits_of_slash_mem n (by decide) h2
  · rw [show ("/startups".data).length = 9 from rfl] at hkl
    interval_cases k <;> exact absurd htake (by decide)

/-- `/trends?limit={n}` is a different string from `/trends`. -/
theorem trendsEndpoint_ne_trends (n : Nat) (hn : n ≠ 0) :
    ((trendsEndpoint (some n)) == "/trends") = false := by
  rw [beq_eq_false_iff_ne]
  intro h
  have hlen := congrArg (fun s => s.data.length) h
  simp only at hlen
  rw [trendsEndpoint_data n hn] at hlen
  simp only [List.length_append] at hlen
  rw [show ("/trends?limit=".data).length = 14 from rfl] at hlen
  rw [show (String.data "/trends").length = 7 from rfl] at hlen
  omega

/-- `/trends/{id}/subtrends` is a different string from `/trends`. -/
theorem subtrendsEndpoint_ne_trends (id : String) :
    ((subtrendsEndpoint id) == "/trends") = false := by
  rw [beq_eq_false_iff_ne]
  intro h
  have hlen := congrArg (fun s => s.data.length) h
  simp only at hlen
  rw [subtrendsEndpoint_data] at hlen
  simp only [List.length_cons, List.length_append, List.length_nil] at hlen
  omega

/-! ### Cache lemmas -/

/-- A deleted key is no longer found. -/
theorem cacheFind_cacheDelete (c : Cache) (k : String) :
    cacheFind (cacheDelete c k) k = none := by
  induction c with
  | nil => rfl
  | cons kv rest ih =>
    obtain ⟨k2, e⟩ := kv
    by_cases h : k2 = k
    · simp [cacheDelete, h, ih]
    · simp [cacheDelete, cacheFind, h, ih]

/-- A freshly written entry is found at its key. -/
theorem cacheFind_setCachedData (c : Cache) (k : String) (v : JsValue) (t : Nat) :
    cacheFind (setCachedData c k v t) k = some ⟨v, t⟩ := by
  simp [setCachedData, cacheFind]

/-- When the mock-mode test is false, some base URL is resolvable (the
mock-mode test starts with the negated truthiness of the resolved URL). -/
theorem mocks_off_implies_baseUrl (st : Settings) (h : shouldUseMocks st = false) :
    ∃ u, getApiBaseUrl st = some u := by
  unfold shouldUseMocks at h
  cases hg : getApiBaseUrl st with
  | none => rw [hg] at h; simp [optTruthy] at h
  | some u => exact ⟨u, rfl⟩

/-! ### Claims -/

/-- C1: after `put(k, v)` at time `tPut`, a `get(k)` at time `now` returns
`v` and keeps the entry while `now - tPut < CACHE_DURATION` (5 minutes);
once `now - tPut > CACHE_DURATION`, the same `get` call returns absent
(JS `null`) and evicts the entry within that call, so an expired entry is
never returned. -/
theorem cache_ttl_live_then_evict_C1 (c : Cache) (k : String) (v : JsValue)
    (tPut now : Nat) :
    (now - tPut < CACHE_DURATION →
      getCachedData (setCachedData c k v tPut) now k = (v, setCachedData c k v tPut)) ∧
    (now - tPut > CACHE_DURATION →
      getCachedData (setCachedData c k v tPut) now k
          = (JsValue.null, cacheDelete (setCachedData c k v tPut) k) ∧
        cacheFind (cacheDelete (setCachedData c k v tPut) k) k = none) := by
  constructor
  · intro h
    simp only [getCachedData, cacheFind_setCachedData]
    rw [if_neg (by simp only [CACHE_DURATION] at h ⊢; omega)]
  · intro h
    refine ⟨?_, cacheFind_cacheDelete _ _⟩
    simp only [getCachedData, cacheFind_setCachedData]
    rw [if_pos (by simp only [CACHE_DURATION] at h ⊢; omega)]

/-- Witness for C1 at concrete inputs: a value put at time 0 is returned at
time 1000; at time 300001 (> 5 minutes) it is absent and evicted. -/
theorem cache_ttl_live_then_evict_C1_witness :
    getCachedData (setCachedData [] "api:/trends" (JsValue.str "payload") 0) 1000 "api:/trends"
        = (JsValue.str "payload", setCachedData [] "api:/trends" (JsValue.str "payload") 0) ∧
    getCachedData (setCachedData [] "api:/trends" (JsValue.str "payload") 0) 300001 "api:/trends"
        = (JsValue.null,
            cacheDelete (setCachedData [] "api:/trends" (JsValue.str "payload") 0) "api:/trends") :=
  ⟨(cache_ttl_live_then_evict_C1 [] "api:/trends" (JsValue.str "payload") 0 1000).1 (by decide),
   ((cache_ttl_live_then_evict_C1 [] "api:/trends" (JsValue.str "payload") 0 300001).2
      (by decide)).1⟩

/-- C9: under any fixed settings, the `'API base URL not configured'` branch
is unreachable in all four functions: whenever the mock-mode test is false,
a base URL is resolvable, so the guard of that branch never fires. -/
theorem config_error_unreachable_C9 (st : Settings) (c : Cache) (now : Nat)
    (limit : Option Nat) (trendId subtrendId : String) (slimit : Nat)
    (net : Except JsError JsValue) (netc : Except JsError Unit) (elapsed : Nat) :
    (fetchTrends st c now limit net).hitConfigBranch = false ∧
    (fetchSubtrends st c now trendId net).hitConfigBranch = false ∧
    (fetchStartups st c now subtrendId slimit net).hitConfigBranch = false ∧
    (testConnection st elapsed netc).hitConfigBranch = false := by
  have hq : ∀ (endpoint res : String) (net2 : Except JsError JsValue),
      (queryCore st c now endpoint res net2).hitConfigBranch = false := by
    intro endpoint res net2
    by_cases hm : shouldUseMocks st = true
    · simp only [queryCore, hm, if_true]
      split
      · rfl
      · split <;> rfl
    · have hmf : shouldUseMocks st = false := by simpa using hm
      obtain ⟨u, hu⟩ := mocks_off_implies_baseUrl st hmf
      simp only [queryCore, hmf, Bool.false_eq_true, if_false, hu]
      split
      · rfl
      · split <;> rfl
  refine ⟨hq _ _ _, hq _ _ _, hq _ _ _, ?_⟩
  by_cases hm : shouldUseMocks st = true
  · simp only [testConnection, hm, if_true]
    split <;> rfl
  · have hmf : shouldUseMocks st = false := by simpa using hm
    obtain ⟨u, hu⟩ := mocks_off_implies_baseUrl st hmf
    simp only [testConnection, hmf, Bool.false_eq_true, if_false, hu]
    split <;> rfl

/-- C10: a limit of 0 is falsy, so `fetchTrends(0)` and `fetchTrends()`
build the same `/trends` endpoint and cache key; in mock mode both return 3
trend records (not 0), and after one of them populates the cache the other
is served from it (no mock and no network access on the second call). -/
theorem trends_limit_zero_alias_C10 :
    trendsEndpoint (some 0) = trendsEndpoint none ∧
    trendsEndpoint (some 0) = "/trends" ∧
    getCacheKey (trendsEndpoint (some 0)) = getCacheKey (trendsEndpoint none) ∧
    (fetchTrends mockSettings [] 0 (some 0) (Except.error ⟨"TypeError", "offline"⟩)).result
        = Except.ok (JsValue.arr (mockTrends.take 3)) ∧
    (mockTrends.take 3).length = 3 ∧
    (fetchTrends mockSettings [] 0 (some 0) (Except.error ⟨"TypeError", "offline"⟩)).usedNetwork
        = false ∧
    (fetchTrends mockSettings
        ((fetchTrends mockSettings [] 0 (some 0) (Except.error ⟨"TypeError", "offline"⟩)).cache)
        0 none (Except.error ⟨"TypeError", "offline"⟩)).result
        = Except.ok (JsValue.arr (mockTrends.take 3)) ∧
    (fetchTrends mockSettings
        ((fetchTrends mockSettings [] 0 (some 0) (Except.error ⟨"TypeError", "offline"⟩)).cache)
        0 none (Except.error ⟨"TypeError", "offline"⟩)).usedMock = false ∧
    (fetchTrends mockSettings
        ((fetchTrends mockSettings [] 0 (some 0) (Except.error ⟨"TypeError", "offline"⟩)).cache)
        0 none (Except.error ⟨"TypeError", "offline"⟩)).usedNetwork = false :=
  ⟨rfl, rfl, rfl, rfl, rfl, rfl, rfl, rfl, rfl⟩

/-- C5 counterexample: in mock mode the requested limit 5 is not served as
the trends fixture truncated to 5 records; the Mock Provider only recognizes
endpoints containing `limit=3` (or exactly `/trends`), so `fetchTrends(5)`
surfaces a wrapped `Mock data not found` error instead. -/
theorem mock_limit_truncation_C5_counterexample :
    getMockData "/trends?limit=5"
        = Except.error ⟨"Error", "Mock data not found for endpoint: /trends?limit=5"⟩ ∧
    trendsEndpoint (some 5) = "/trends?limit=5" ∧
    (fetchTrends mockSettings [] 0 (some 5) (Except.error ⟨"TypeError", "offline"⟩)).result
        = Except.error ⟨"Error",
            "Failed to fetch trends: " ++ "Mock data not found for endpoint: /trends?limit=5"⟩ ∧
    (fetchTrends mockSettings [] 0 (some 5) (Except.error ⟨"TypeError", "offline"⟩)).result
        ≠ Except.ok (JsValue.arr (mockTrends.take 5)) := by
  refine ⟨rfl, rfl, rfl, ?_⟩
  intro h
  have h2 : (Except.error (⟨"Error",
      "Failed to fetch trends: " ++ "Mock data not found for endpoint: /trends?limit=5"⟩ :
        JsError) : Except JsError JsValue)
      = Except.ok (JsValue.arr (mockTrends.take 5)) := h
  exact Except.noConfusion h2

/-- C5 amended: in mock mode with an empty cache, a trends request with a
truthy limit is served from the fixture exactly when its endpoint contains
the literal substring `limit=3`: then the first 3 fixture records are
returned with no network access; for every other limit the call fails with
the wrapped `Mock data not found` error rather than the fixture truncated to
the requested limit. In particular `fetchTrends(3)` returns exactly 3 mock
trend records without any network attempt. -/
theorem mock_limit_truncation_C5 :
    (∀ n : Nat, n ≠ 0 → jsIncludes (trendsEndpoint (some n)) "limit=3" = true →
      ∀ net, (fetchTrends mockSettings [] 0 (some n) net).result
            = Except.ok (JsValue.arr (mockTrends.take 3)) ∧
          (fetchTrends mockSettings [] 0 (some n) net).usedNetwork = false) ∧
    (∀ n : Nat, n ≠ 0 → jsIncludes (trendsEndpoint (some n)) "limit=3" = false →
      ∀ net, (fetchTrends mockSettings [] 0 (some n) net).result
            = Except.error ⟨"Error", "Failed to fetch trends: "
                ++ ("Mock data not found for endpoint: " ++ trendsEndpoint (some n))⟩ ∧
          (fetchTrends mockSettings [] 0 (some n) net).usedNetwork = false) ∧
    ((fetchTrends mockSettings [] 0 (some 3) (Except.error ⟨"TypeError", "offline"⟩)).result
          = Except.ok (JsValue.arr (mockTrends.take 3)) ∧
      (mockTrends.take 3).length = 3 ∧
      (fetchTrends mockSettings [] 0 (some 3) (Except.error ⟨"TypeError", "offline"⟩)).usedNetwork
          = false) := by
  refine ⟨?_, ?_, rfl, rfl, rfl⟩
  · intro n hn hinc net
    simp only [fetchTrends, queryCore]
    rw [show getCachedData [] 0 (getCacheKey (trendsEndpoint (some n))) = (JsValue.null, []) from
      rfl]
    simp only [jsTruthy, Bool.false_eq_true, if_false,
      show shouldUseMocks mockSettings = true from rfl, if_true]
    rw [show getMockData (trendsEndpoint (some n))
        = (if jsStartsWith (trendsEndpoint (some n)) "/trends"
              && (jsIncludes (trendsEndpoint (some n)) "limit=3"
                || trendsEndpoint (some n) == "/trends") then
            Except.ok (JsValue.arr (mockTrends.take 3))
          else if jsIncludes (trendsEndpoint (some n)) "/subtrends"
              && pathSeg2 (trendsEndpoint (some n)) == "defense-tech" then
            Except.ok mockSubtrendsDefenseTech
          else if jsIncludes (trendsEndpoint (some n)) "/subtrends"
              && pathSeg2 (trendsEndpoint (some n)) == "climate-solutions" then
            Except.ok mockSubtrendsClimateSolutions
          else if jsIncludes (trendsEndpoint (some n)) "/startups"
              && pathSeg2 (trendsEndpoint (some n)) == "military-drones" then
            Except.ok mockStartupsMilitaryDrones
          else if jsIncludes (trendsEndpoint (some n)) "/startups"
              && pathSeg2 (trendsEndpoint (some n)) == "carbon-capture" then
            Except.ok mockStartupsCarbon
          else
            Except.error ⟨"Error",
              "Mock data not found for endpoint: " ++ trendsEndpoint (some n)⟩) from rfl]
    rw [startsWith_trends_trendsEndpoint n hn, hinc]
    refine ⟨?_, ?_⟩
    · rfl
    · rfl
  · intro n hn hinc net
    simp only [fetchTrends, queryCore]
    rw [show getCachedData [] 0 (getCacheKey (trendsEndpoint (some n))) = (JsValue.null, []) from
      rfl]
    simp only [jsTruthy, Bool.false_eq_true, if_false,
      show shouldUseMocks mockSettings = true from rfl, if_true]
    simp only [getMockData, startsWith_trends_trendsEndpoint n hn, hinc,
      trendsEndpoint_ne_trends n hn, not_includes_subtrends_trendsEndpoint n hn,
      not_includes_startups_trendsEndpoint n hn, Bool.false_or, Bool.and_false,
      Bool.and_true, Bool.true_and, Bool.false_and, Bool.false_eq_true, if_false]
    exact ⟨rfl, trivial⟩

/-- Witness for C5 amended at concrete inputs: limit 3 hits the `limit=3`
path and yields 3 records; limit 5 misses it and yields the wrapped error. -/
theorem mock_limit_truncation_C5_witness :
    ((fetchTrends mockSettings [] 0 (some 3) (Except.error ⟨"TypeError", "offline"⟩)).result
        = Except.ok (JsValue.arr (mockTrends.take 3)) ∧
      (fetchTrends mockSettings [] 0 (some 3) (Except.error ⟨"TypeError", "offline"⟩)).usedNetwork
        = false) ∧
    ((fetchTrends mockSettings [] 0 (some 5) (Except.error ⟨"TypeError", "offline"⟩)).result
        = Except.error ⟨"Error", "Failed to fetch trends: "
            ++ ("Mock data not found for endpoint: " ++ trendsEndpoint (some 5))⟩ ∧
      (fetchTrends mockSettings [] 0 (some 5) (Except.error ⟨"TypeError", "offline"⟩)).usedNetwork
        = false) :=
  ⟨(mock_limit_truncation_C5.1 3 (by decide) (by decide) (Except.error ⟨"TypeError", "offline"⟩)),
   (mock_limit_truncation_C5.2.1 5 (by decide) (by decide)
      (Except.error ⟨"TypeError", "offline"⟩))⟩

/-- A live cache entry with a truthy payload short-circuits the whole query:
the cached payload is returned, the cache is untouched, and neither the mock
provider nor the network client is consulted. -/
theorem queryCore_cache_hit (st : Settings) (c : Cache) (now : Nat)
    (endpoint res : String) (net : Except JsError JsValue) (e : CacheEntry)
    (hfind : cacheFind c (getCacheKey endpoint) = some e)
    (hlive : now - e.timestamp ≤ CACHE_DURATION)
    (htruthy : jsTruthy e.data = true) :
    queryCore st c now endpoint res net = ⟨Except.ok e.data, c, false, false, false⟩ := by
  have hgot : getCachedData c now (getCacheKey endpoint) = (e.data, c) := by
    simp only [getCachedData, hfind]
    rw [if_neg (by omega)]
  simp [queryCore, hgot, htruthy]

/-- C4 counterexample: the cache-hit test is a JS truthiness test, not a
presence test. In network mode a fetched payload `false` is cached; on the
next identical call the live entry exists but is falsy, so the function
consults the network again instead of returning the cached payload. -/
theorem cache_hit_short_circuit_C4_counterexample :
    (fetchTrends netSettings [] 0 none (Except.ok (JsValue.bool false))).cache
        = [("api:/trends", ⟨JsValue.bool false, 0⟩)] ∧
    cacheFind [("api:/trends", ⟨JsValue.bool false, 0⟩)] (getCacheKey (trendsEndpoint none))
        = some ⟨JsValue.bool false, 0⟩ ∧
    0 - 0 ≤ CACHE_DURATION ∧
    (fetchTrends netSettings [("api:/trends", ⟨JsValue.bool false, 0⟩)] 0 none
        (Except.ok (JsValue.bool false))).usedNetwork = true ∧
    (fetchTrends netSettings [("api:/trends", ⟨JsValue.bool false, 0⟩)] 0 none
        (Except.ok (JsValue.bool false))).cache
        = [("api:/trends", ⟨JsValue.bool false, 0⟩)] :=
  ⟨rfl, rfl, by decide, rfl, rfl⟩

/-- C4 amended: for each query function, a live (unexpired) cache entry with
a truthy payload short-circuits everything: the cached payload is returned
with no mock access, no network access and no cache write; a live entry
whose payload is falsy (possible only for non-array JSON from the network)
is ignored and a fresh fetch happens instead. -/
theorem cache_hit_short_circuit_C4 (st : Settings) (c : Cache) (now : Nat)
    (e : CacheEntry) (htruthy : jsTruthy e.data = true) :
    (∀ limit net, cacheFind c (getCacheKey (trendsEndpoint limit)) = some e →
      now - e.timestamp ≤ CACHE_DURATION →
      fetchTrends st c now limit net = ⟨Except.ok e.data, c, false, false, false⟩) ∧
    (∀ trendId net, cacheFind c (getCacheKey (subtrendsEndpoint trendId)) = some e →
      now - e.timestamp ≤ CACHE_DURATION →
      fetchSubtrends st c now trendId net = ⟨Except.ok e.data, c, false, false, false⟩) ∧
    (∀ subtrendId lim net, cacheFind c (getCacheKey (startupsEndpoint subtrendId lim)) = some e →
      now - e.timestamp ≤ CACHE_DURATION →
      fetchStartups st c now subtrendId lim net = ⟨Except.ok e.data, c, false, false, false⟩) :=
  ⟨fun _ net hf hl => queryCore_cache_hit st c now _ "trends" net e hf hl htruthy,
   fun _ net hf hl => queryCore_cache_hit st c now _ "subtrends" net e hf hl htruthy,
   fun _ _ net hf hl => queryCore_cache_hit st c now _ "startups" net e hf hl htruthy⟩

/-- Witness for C4 amended: a live truthy entry put at time 0 is served at
time 1000 by all three functions with untouched cache and no fetch. -/
theorem cache_hit_short_circuit_C4_witness :
    fetchTrends mockSettings
        [("api:/trends", ⟨JsValue.arr (mockTrends.take 3), 0⟩)] 1000 none
        (Except.error ⟨"TypeError", "offline"⟩)
      = ⟨Except.ok (JsValue.arr (mockTrends.take 3)),
         [("api:/trends", ⟨JsValue.arr (mockTrends.take 3), 0⟩)], false, false, false⟩ ∧
    fetchSubtrends mockSettings
        [("api:/trends/defense-tech/subtrends", ⟨mockSubtrendsDefenseTech, 0⟩)] 1000
        "defense-tech" (Except.error ⟨"TypeError", "offline"⟩)
      = ⟨Except.ok mockSubtrendsDefenseTech,
         [("api:/trends/defense-tech/subtrends", ⟨mockSubtrendsDefenseTech, 0⟩)],
         false, false, false⟩ :=
  ⟨(cache_hit_short_circuit_C4 mockSettings
      [("api:/trends", ⟨JsValue.arr (mockTrends.take 3), 0⟩)] 1000
      ⟨JsValue.arr (mockTrends.take 3), 0⟩ rfl).1 none
      (Except.error ⟨"TypeError", "offline"⟩) rfl (by decide),
   (cache_hit_short_circuit_C4 mockSettings
      [("api:/trends/defense-tech/subtrends", ⟨mockSubtrendsDefenseTech, 0⟩)] 1000
      ⟨mockSubtrendsDefenseTech, 0⟩ rfl).2.1 "defense-tech"
      (Except.error ⟨"TypeError", "offline"⟩) rfl (by decide)⟩

/-- Every error result of the shared query pattern is the resource-named
wrapper around some underlying cause. -/
theorem queryCore_error_shape (st : Settings) (c : Cache) (now : Nat)
    (endpoint res : String) (net : Except JsError JsValue) (e : JsError)
    (h : (queryCore st c now endpoint res net).result = Except.error e) :
    ∃ cause, e = wrapFail res cause := by
  by_cases hhit : jsTruthy (getCachedData c now (getCacheKey endpoint)).1 = true
  · simp [queryCore, hhit] at h
  · have hhit2 : jsTruthy (getCachedData c now (getCacheKey endpoint)).1 = false := by
      simpa using hhit
    by_cases hm : shouldUseMocks st = true
    · cases hmock : getMockData endpoint with
      | error me =>
        simp [queryCore, hhit2, hm, hmock] at h
        exact ⟨me, h.symm⟩
      | ok d => simp [queryCore, hhit2, hm, hmock] at h
    · have hmf : shouldUseMocks st = false := by simpa using hm
      cases hu : getApiBaseUrl st with
      | none =>
        simp [queryCore, hhit2, hmf, hu] at h
        exact ⟨configError, h.symm⟩
      | some u =>
        cases net with
        | error ne =>
          simp [queryCore, hhit2, hmf, hu] at h
          exact ⟨ne, h.symm⟩
        | ok d => simp [queryCore, hhit2, hmf, hu] at h

/-- A cache miss followed by a mock-provider failure yields exactly the
wrapped error, with no cache write beyond the get's own lazy eviction. -/
theorem queryCore_mock_failure (st : Settings) (c : Cache) (now : Nat)
    (endpoint res : String) (net : Except JsError JsValue) (me : JsError)
    (hmiss : jsTruthy (getCachedData c now (getCacheKey endpoint)).1 = false)
    (hm : shouldUseMocks st = true)
    (hmock : getMockData endpoint = Except.error me) :
    queryCore st c now endpoint res net
      = ⟨Except.error (wrapFail res me), (getCachedData c now (getCacheKey endpoint)).2,
         true, false, false⟩ := by
  simp [queryCore, hmiss, hm, hmock]

/-- A cache miss followed by a network-path failure yields exactly the
wrapped error, with no cache write beyond the get's own lazy eviction. -/
theorem queryCore_net_failure (st : Settings) (c : Cache) (now : Nat)
    (endpoint res : String) (ne : JsError)
    (hmiss : jsTruthy (getCachedData c now (getCacheKey endpoint)).1 = false)
    (hmf : shouldUseMocks st = false) :
    queryCore st c now endpoint res (Except.error ne)
      = ⟨Except.error (wrapFail res ne), (getCachedData c now (getCacheKey endpoint)).2,
         false, true, false⟩ := by
  obtain ⟨u, hu⟩ := mocks_off_implies_baseUrl st hmf
  simp [queryCore, hmiss, hmf, hu]

/-- C8: every error thrown by a query function names the resource that
failed (`Failed to fetch trends/subtrends/startups: ...` wrapping the
underlying cause); and on a cache miss a failing fresh fetch (mock or
network) produces exactly that wrapped error and never a payload, with no
cache write (so no stale or partial data stands in for the failed fetch;
only the cache-hit path, which returns before the try block, bypasses this
wrapping). -/
theorem error_wrapping_C8 (st : Settings) (c : Cache) (now : Nat) :
    (∀ limit net e, (fetchTrends st c now limit net).result = Except.error e →
      ∃ cause, e = wrapFail "trends" cause) ∧
    (∀ trendId net e, (fetchSubtrends st c now trendId net).result = Except.error e →
      ∃ cause, e = wrapFail "subtrends" cause) ∧
    (∀ subtrendId lim net e, (fetchStartups st c now subtrendId lim net).result = Except.error e →
      ∃ cause, e = wrapFail "startups" cause) ∧
    (∀ limit net me,
      jsTruthy (getCachedData c now (getCacheKey (trendsEndpoint limit))).1 = false →
      shouldUseMocks st = true → getMockData (trendsEndpoint limit) = Except.error me →
      fetchTrends st c now limit net
        = ⟨Except.error (wrapFail "trends" me),
           (getCachedData c now (getCacheKey (trendsEndpoint limit))).2, true, false, false⟩) ∧
    (∀ limit ne,
      jsTruthy (getCachedData c now (getCacheKey (trendsEndpoint limit))).1 = false →
      shouldUseMocks st = false →
      fetchTrends st c now limit (Except.error ne)
        = ⟨Except.error (wrapFail "trends" ne),
           (getCachedData c now (getCacheKey (trendsEndpoint limit))).2, false, true, false⟩) ∧
    (∀ trendId net me,
      jsTruthy (getCachedData c now (getCacheKey (subtrendsEndpoint trendId))).1 = false →
      shouldUseMocks st = true → getMockData (subtrendsEndpoint trendId) = Except.error me →
      fetchSubtrends st c now trendId net
        = ⟨Except.error (wrapFail "subtrends" me),
           (getCachedData c now (getCacheKey (subtrendsEndpoint trendId))).2,
           true, false, false⟩) ∧
    (∀ trendId ne,
      jsTruthy (getCachedData c now (getCacheKey (subtrendsEndpoint trendId))).1 = false →
      shouldUseMocks st = false →
      fetchSubtrends st c now trendId (Except.error ne)
        = ⟨Except.error (wrapFail "subtrends" ne),
           (getCachedData c now (getCacheKey (subtrendsEndpoint trendId))).2,
           false, true, false⟩) ∧
    (∀ subtrendId lim net me,
      jsTruthy (getCachedData c now (getCacheKey (startupsEndpoint subtrendId lim))).1 = false →
      shouldUseMocks st = true → getMockData (startupsEndpoint subtrendId lim) = Except.error me →
      fetchStartups st c now subtrendId lim net
        = ⟨Except.error (wrapFail "startups" me),
           (getCachedData c now (getCacheKey (startupsEndpoint subtrendId lim))).2,
           true, false, false⟩) ∧
    (∀ subtrendId lim ne,
      jsTruthy (getCachedData c now (getCacheKey (startupsEndpoint subtrendId lim))).1 = false →
      shouldUseMocks st = false →
      fetchStartups st c now subtrendId lim (Except.error ne)
        = ⟨Except.error (wrapFail "startups" ne),
           (getCachedData c now (getCacheKey (startupsEndpoint subtrendId lim))).2,
           false, true, false⟩) :=
  ⟨fun _ net e h => queryCore_error_shape st c now _ "trends" net e h,
   fun _ net e h => queryCore_error_shape st c now _ "subtrends" net e h,
   fun _ _ net e h => queryCore_error_shape st c now _ "startups" net e h,
   fun _ net me h1 h2 h3 => queryCore_mock_failure st c now _ "trends" net me h1 h2 h3,
   fun _ ne h1 h2 => queryCore_net_failure st c now _ "trends" ne h1 h2,
   fun _ net me h1 h2 h3 => queryCore_mock_failure st c now _ "subtrends" net me h1 h2 h3,
   fun _ ne h1 h2 => queryCore_net_failure st c now _ "subtrends" ne h1 h2,
   fun _ _ net me h1 h2 h3 => queryCore_mock_failure st c now _ "startups" net me h1 h2 h3,
   fun _ _ ne h1 h2 => queryCore_net_failure st c now _ "startups" ne h1 h2⟩

/-- Witness for C8 at concrete inputs: a mock miss on `/trends?limit=5`
yields the wrapped trends error; a network failure on subtrends yields the
wrapped subtrends error. -/
theorem error_wrapping_C8_witness :
    (∃ cause, (⟨"Error", "Failed to fetch trends: "
        ++ "Mock data not found for endpoint: /trends?limit=5"⟩ : JsError)
        = wrapFail "trends" cause) ∧
    fetchTrends mockSettings [] 0 (some 5) (Except.error ⟨"TypeError", "offline"⟩)
      = ⟨Except.error (wrapFail "trends"
            ⟨"Error", "Mock data not found for endpoint: /trends?limit=5"⟩),
         [], true, false, false⟩ ∧
    fetchSubtrends netSettings [] 0 "defense-tech" (Except.error ⟨"TypeError", "offline"⟩)
      = ⟨Except.error (wrapFail "subtrends" ⟨"TypeError", "offline"⟩), [], false, true, false⟩ :=
  ⟨(error_wrapping_C8 mockSettings [] 0).1 (some 5) (Except.error ⟨"TypeError", "offline"⟩)
      ⟨"Error", "Failed to fetch trends: "
        ++ "Mock data not found for endpoint: /trends?limit=5"⟩ rfl,
   (error_wrapping_C8 mockSettings [] 0).2.2.2.1 (some 5)
      (Except.error ⟨"TypeError", "offline"⟩)
      ⟨"Error", "Mock data not found for endpoint: /trends?limit=5"⟩ rfl rfl rfl,
   (error_wrapping_C8 netSettings [] 0).2.2.2.2.2.2.1 "defense-tech"
      ⟨"TypeError", "offline"⟩ rfl rfl⟩

/-! ### Retry-client step lemmas -/

/-- A retryable failing attempt that settles before the deadline rejects
with its own error at `now + dur`, leaving the timer per `armedAfter`. -/
theorem doFetch_retryable {outcome : FetchOutcome} {now : Nat} {armed : Bool}
    (h : isRetryableFailure outcome)
    (htime : now + outcomeDur outcome ≤ API_TIMEOUT)
    (hpre : armed = true → now < API_TIMEOUT) :
    doFetch outcome now armed
      = some (now + outcomeDur outcome, armedAfter outcome armed,
          Except.error (deliveredError outcome)) := by
  rcases outcome with ⟨s, t, d⟩ | ⟨m, d⟩ | _
  · obtain ⟨hnok, _⟩ := h
    cases armed with
    | true =>
      rw [doFetch, if_pos rfl, if_neg (by have := hpre rfl; omega)]
      simp only [outcomeDur] at htime
      rw [if_pos htime, if_neg hnok]
      rfl
    | false =>
      rw [doFetch, if_neg (by simp)]
      simp only [if_neg hnok]
      rfl
  · cases armed with
    | true =>
      rw [doFetch, if_pos rfl, if_neg (by have := hpre rfl; omega)]
      simp only [outcomeDur] at htime
      rw [if_pos htime]
      rfl
    | false =>
      rw [doFetch, if_neg (by simp)]
      rfl
  · exact h.elim

/-- The error of a retryable failure never triggers the non-retry break. -/
theorem retryable_not_break {outcome : FetchOutcome} (h : isRetryableFailure outcome) :
    ((deliveredError outcome).name == "AbortError"
      || jsIncludes (deliveredError outcome).message "HTTP 4") = false := by
  rcases outcome with ⟨s, t, d⟩ | ⟨m, d⟩ | _
  · simp only [deliveredError]
    rw [h.2]
    rfl
  · simp only [deliveredError]
    rw [show jsIncludes (⟨"TypeError", m⟩ : JsError).message "HTTP 4" = jsIncludes m "HTTP 4"
      from rfl, h]
    rfl
  · exact h.elim

/-- Unfolding `natDigitsAux` for sufficient fuel. -/
theorem natDigitsAux_eq {fuel n : Nat} (h : n < fuel) :
    natDigitsAux fuel n
      = if n < 10 then [Char.ofNat (48 + n)]
        else natDigitsAux (fuel - 1) (n / 10) ++ [Char.ofNat (48 + n % 10)] := by
  cases fuel with
  | zero => omega
  | succ f => rw [natDigitsAux]; rfl

/-- Fuel does not matter as long as it exceeds the argument. -/
theorem natDigitsAux_fuel {f1 : Nat} : ∀ {f2 n : Nat}, n < f1 → n < f2 →
    natDigitsAux f1 n = natDigitsAux f2 n := by
  induction f1 with
  | zero => intro f2 n h1 _; omega
  | succ f ih =>
    intro f2 n h1 h2
    cases f2 with
    | zero => omega
    | succ g =>
      rw [natDigitsAux, natDigitsAux]
      by_cases h10 : n < 10
      · rw [if_pos h10, if_pos h10]
      · rw [if_neg h10, if_neg h10]
        have hd : n / 10 < n := Nat.div_lt_self (by omega) (by omega)
        rw [@ih g (n / 10) (by omega) (by omega)]

/-- The decimal representation of a 4xx status starts with the digit 4. -/
theorem natDigits_4xx (s : Nat) (h4 : 400 ≤ s) (h5 : s < 500) :
    ∃ rest, natDigits s = '4' :: rest := by
  unfold natDigits
  rw [natDigitsAux_eq (by omega), if_neg (by omega)]
  rw [natDigitsAux_eq (by omega), if_neg (by omega)]
  rw [natDigitsAux_eq (by omega), if_pos (by omega)]
  rw [show s / 10 / 10 = 4 by omega]
  exact ⟨_, rfl⟩

/-- The thrown error message for a 4xx response contains `HTTP 4`, so the
loop classifies it as non-retryable. -/
theorem httpError_4xx_includes (s : Nat) (t : String) (h4 : 400 ≤ s) (h5 : s < 500) :
    jsIncludes (httpError s t).message "HTTP 4" = true := by
  simp only [jsIncludes, httpError, decide_eq_true_eq]
  obtain ⟨rest, hr⟩ := natDigits_4xx s h4 h5
  refine List.IsPrefix.isInfix ⟨rest ++ (": ".data ++ t.data), ?_⟩
  simp only [String.data_append, natToString, List.append_assoc]
  rw [hr]
  rfl

/-- Consequently a delivered 4xx response triggers the non-retry break. -/
theorem response_4xx_breaks (s : Nat) (t : String) (h4 : 400 ≤ s) (h5 : s < 500) :
    (((httpError s t).name == "AbortError")
      || jsIncludes (httpError s t).message "HTTP 4") = true := by
  rw [httpError_4xx_includes s t h4 h5, Bool.or_true]

/-- One loop iteration on a retryable failure with retry budget left:
capture the error, sleep `2 ^ attempt` seconds, continue with the next
attempt. -/
theorem fetchLoop_step_retry (o : Nat → FetchOutcome) (fuel attempt : Nat) (st : RetryState)
    (h : isRetryableFailure (o attempt))
    (htime : st.now + outcomeDur (o attempt) ≤ API_TIMEOUT)
    (hpre : st.timerArmed = true → st.now < API_TIMEOUT)
    (hlt : attempt < MAX_RETRIES) :
    fetchLoop o (fuel + 1) attempt st
      = fetchLoop o fuel (attempt + 1)
          ⟨st.now + outcomeDur (o attempt) + 2 ^ attempt * 1000,
           armedAfter (o attempt) st.timerArmed,
           some (deliveredError (o attempt)),
           st.fetchCalls + 1,
           st.sleeps ++ [2 ^ attempt * 1000]⟩ := by
  rw [fetchLoop, doFetch_retryable h htime hpre]
  dsimp only
  rw [retryable_not_break h, if_neg (by decide), if_pos hlt]

/-- The last loop iteration on a retryable failure: capture the error, skip
the sleep, exit the loop, rethrow the captured error. -/
theorem fetchLoop_last_retry (o : Nat → FetchOutcome) (attempt : Nat) (st : RetryState)
    (h : isRetryableFailure (o attempt))
    (htime : st.now + outcomeDur (o attempt) ≤ API_TIMEOUT)
    (hpre : st.timerArmed = true → st.now < API_TIMEOUT)
    (hge : ¬ attempt < MAX_RETRIES) :
    fetchLoop o (0 + 1) attempt st
      = FetchResult.thrown (deliveredError (o attempt))
          ⟨st.now + outcomeDur (o attempt), armedAfter (o attempt) st.timerArmed,
           some (deliveredError (o attempt)), st.fetchCalls + 1, st.sleeps⟩ := by
  rw [fetchLoop, doFetch_retryable h htime hpre]
  dsimp only
  rw [retryable_not_break h, if_neg (by decide), if_neg hge, fetchLoop]
  rfl

/-- C2: when every attempt fails with a retryable error (network rejection,
5xx, ...) and the whole schedule fits inside the 10s window, `fetchWithRetry`
makes exactly 3 fetch calls, sleeps `2^0` s then `2^1` s between them
(exponential backoff 1s, 2s), and finally throws the last attempt's error
(the `Request failed` fallback being reserved for the case where no error
was captured). -/
theorem retry_exhaustion_C2 (o : Nat → FetchOutcome)
    (h0 : isRetryableFailure (o 0)) (h1 : isRetryableFailure (o 1))
    (h2 : isRetryableFailure (o 2))
    (ht : outcomeDur (o 0) + outcomeDur (o 1) + outcomeDur (o 2) + 3000 < API_TIMEOUT) :
    ∃ st : RetryState, fetchWithRetry o = FetchResult.thrown (deliveredError (o 2)) st ∧
      st.fetchCalls = 3 ∧ st.sleeps = [1000, 2000] ∧
      st.lastError = some (deliveredError (o 2)) := by
  have hA : 3000 ≤ API_TIMEOUT := by omega
  have hmain : fetchWithRetry o
      = FetchResult.thrown (deliveredError (o 2))
          ⟨0 + outcomeDur (o 0) + 2 ^ 0 * 1000 + outcomeDur (o 1) + 2 ^ 1 * 1000
              + outcomeDur (o 2),
           armedAfter (o 2) (armedAfter (o 1) (armedAfter (o 0) true)),
           some (deliveredError (o 2)), 0 + 1 + 1 + 1,
           ([] ++ [2 ^ 0 * 1000]) ++ [2 ^ 1 * 1000]⟩ := by
    calc fetchWithRetry o
        = fetchLoop o (2 + 1) 0 ⟨0, true, none, 0, []⟩ := rfl
      _ = fetchLoop o (1 + 1) 1
            ⟨0 + outcomeDur (o 0) + 2 ^ 0 * 1000, armedAfter (o 0) true,
             some (deliveredError (o 0)), 0 + 1, [] ++ [2 ^ 0 * 1000]⟩ :=
          fetchLoop_step_retry o 2 0 ⟨0, true, none, 0, []⟩ h0
            (show 0 + outcomeDur (o 0) ≤ API_TIMEOUT by omega)
            (fun _ => show 0 < API_TIMEOUT by omega)
            (by decide)
      _ = fetchLoop o (0 + 1) 2
            ⟨0 + outcomeDur (o 0) + 2 ^ 0 * 1000 + outcomeDur (o 1) + 2 ^ 1 * 1000,
             armedAfter (o 1) (armedAfter (o 0) true),
             some (deliveredError (o 1)), 0 + 1 + 1,
             ([] ++ [2 ^ 0 * 1000]) ++ [2 ^ 1 * 1000]⟩ :=
          fetchLoop_step_retry o 1 1 _ h1
            (show 0 + outcomeDur (o 0) + 1000 + outcomeDur (o 1) ≤ API_TIMEOUT by omega)
            (fun _ => show 0 + outcomeDur (o 0) + 1000 < API_TIMEOUT by omega)
            (by decide)
      _ = FetchResult.thrown (deliveredError (o 2))
            ⟨0 + outcomeDur (o 0) + 2 ^ 0 * 1000 + outcomeDur (o 1) + 2 ^ 1 * 1000
                + outcomeDur (o 2),
             armedAfter (o 2) (armedAfter (o 1) (armedAfter (o 0) true)),
             some (deliveredError (o 2)), 0 + 1 + 1 + 1,
             ([] ++ [2 ^ 0 * 1000]) ++ [2 ^ 1 * 1000]⟩ :=
          fetchLoop_last_retry o 2 _ h2
            (show 0 + outcomeDur (o 0) + 1000 + outcomeDur (o 1) + 2000 + outcomeDur (o 2)
                ≤ API_TIMEOUT by omega)
            (fun _ =>
              show 0 + outcomeDur (o 0) + 1000 + outcomeDur (o 1) + 2000 < API_TIMEOUT by omega)
            (by decide)
  exact ⟨_, hmain, rfl, rfl, rfl⟩

/-- Witness for C2: with a permanently unreachable network (instant
rejections), the client makes 3 calls, sleeps 1s and 2s, and surfaces the
last network error. -/
theorem retry_exhaustion_C2_witness :
    ∃ st : RetryState,
      fetchWithRetry (fun _ => FetchOutcome.networkError "Failed to fetch" 0)
          = FetchResult.thrown
              (deliveredError (FetchOutcome.networkError "Failed to fetch" 0)) st ∧
        st.fetchCalls = 3 ∧ st.sleeps = [1000, 2000] ∧
        st.lastError = some (deliveredError (FetchOutcome.networkError "Failed to fetch" 0)) :=
  retry_exhaustion_C2 (fun _ => FetchOutcome.networkError "Failed to fetch" 0)
    (show jsIncludes "Failed to fetch" "HTTP 4" = false by decide)
    (show jsIncludes "Failed to fetch" "HTTP 4" = false by decide)
    (show jsIncludes "Failed to fetch" "HTTP 4" = false by decide)
    (by decide)

/-- A loop iteration whose attempt delivers a 4xx response before the
deadline: the loop throws the `HTTP status` error at once, with no sleep and
no further attempt (the timer was cleared by the delivered response). -/
theorem fetchLoop_break_4xx (o : Nat → FetchOutcome) (fuel attempt : Nat) (st : RetryState)
    (s : Nat) (t : String) (d : Nat)
    (ho : o attempt = FetchOutcome.response s t d) (h4 : 400 ≤ s) (h5 : s < 500)
    (htime : st.now + d ≤ API_TIMEOUT)
    (hpre : st.timerArmed = true → st.now < API_TIMEOUT) :
    fetchLoop o (fuel + 1) attempt st
      = FetchResult.thrown (httpError s t)
          ⟨st.now + d, false, some (httpError s t), st.fetchCalls + 1, st.sleeps⟩ := by
  have hd : doFetch (FetchOutcome.response s t d) st.now st.timerArmed
      = some (st.now + d, false, Except.error (httpError s t)) := by
    cases harm : st.timerArmed with
    | false =>
      rw [doFetch, if_neg (by decide), if_neg (by omega)]
    | true =>
      rw [doFetch, if_pos rfl, if_neg (by have := hpre harm; omega), if_pos htime,
        if_neg (by omega)]
  rw [fetchLoop, ho, hd]
  dsimp only
  rw [response_4xx_breaks s t h4 h5]
  rfl

/-- A loop iteration whose attempt hangs while the timer is armed: the
shared timeout fires at the deadline, the `AbortError` is thrown at once,
with no sleep and no further attempt. -/
theorem fetchLoop_break_hang (o : Nat → FetchOutcome) (fuel attempt : Nat) (st : RetryState)
    (ho : o attempt = FetchOutcome.hang) (harm : st.timerArmed = true)
    (hlt : st.now < API_TIMEOUT) :
    fetchLoop o (fuel + 1) attempt st
      = FetchResult.thrown abortError
          ⟨API_TIMEOUT, true, some abortError, st.fetchCalls + 1, st.sleeps⟩ := by
  have hd : doFetch FetchOutcome.hang st.now st.timerArmed
      = some (API_TIMEOUT, true, Except.error abortError) := by
    rw [harm, doFetch, if_pos rfl, if_neg (by omega)]
  rw [fetchLoop, ho, hd]
  rfl

/-- C3: a 4xx response fails the whole call immediately after the attempt
that received it (one fetch call, no backoff sleep, no further attempt),
surfacing an error whose message carries the numeric status and status text;
an abort raised by the shared timeout signal likewise ends the call at once
with the `AbortError`. This holds on the first attempt and equally when the
4xx arrives on a retry. -/
theorem nonretryable_immediate_C3 :
    (∀ (o : Nat → FetchOutcome) (s : Nat) (t : String) (d : Nat),
      o 0 = FetchOutcome.response s t d → 400 ≤ s → s < 500 → d ≤ API_TIMEOUT →
      fetchWithRetry o
          = FetchResult.thrown (httpError s t)
              ⟨0 + d, false, some (httpError s t), 0 + 1, []⟩ ∧
        (httpError s t).message = "HTTP " ++ natToString s ++ ": " ++ t) ∧
    (∀ o : Nat → FetchOutcome, o 0 = FetchOutcome.hang →
      fetchWithRetry o
        = FetchResult.thrown abortError
            ⟨API_TIMEOUT, true, some abortError, 0 + 1, []⟩) ∧
    (∀ (o : Nat → FetchOutcome) (s : Nat) (t : String) (d : Nat),
      isRetryableFailure (o 0) → o 1 = FetchOutcome.response s t d →
      400 ≤ s → s < 500 → outcomeDur (o 0) + 1000 + d < API_TIMEOUT →
      fetchWithRetry o
        = FetchResult.thrown (httpError s t)
            ⟨0 + outcomeDur (o 0) + 2 ^ 0 * 1000 + d, false, some (httpError s t),
             0 + 1 + 1, [] ++ [2 ^ 0 * 1000]⟩) := by
  refine ⟨?_, ?_, ?_⟩
  · intro o s t d ho h4 h5 hd
    refine ⟨?_, rfl⟩
    exact fetchLoop_break_4xx o 2 0 ⟨0, true, none, 0, []⟩ s t d ho h4 h5
      (show 0 + d ≤ API_TIMEOUT by omega)
      (fun _ => show 0 < API_TIMEOUT by decide)
  · intro o ho
    exact fetchLoop_break_hang o 2 0 ⟨0, true, none, 0, []⟩ ho rfl (by decide)
  · intro o s t d h0 ho1 h4 h5 ht
    calc fetchWithRetry o
        = fetchLoop o (2 + 1) 0 ⟨0, true, none, 0, []⟩ := rfl
      _ = fetchLoop o (1 + 1) 1
            ⟨0 + outcomeDur (o 0) + 2 ^ 0 * 1000, armedAfter (o 0) true,
             some (deliveredError (o 0)), 0 + 1, [] ++ [2 ^ 0 * 1000]⟩ :=
          fetchLoop_step_retry o 2 0 ⟨0, true, none, 0, []⟩ h0
            (show 0 + outcomeDur (o 0) ≤ API_TIMEOUT by omega)
            (fun _ => show 0 < API_TIMEOUT by decide)
            (by decide)
      _ = FetchResult.thrown (httpError s t)
            ⟨0 + outcomeDur (o 0) + 2 ^ 0 * 1000 + d, false, some (httpError s t),
             0 + 1 + 1, [] ++ [2 ^ 0 * 1000]⟩ :=
          fetchLoop_break_4xx o 1 1 _ s t d ho1 h4 h5
            (show 0 + outcomeDur (o 0) + 1000 + d ≤ API_TIMEOUT by omega)
            (fun _ => show 0 + outcomeDur (o 0) + 1000 < API_TIMEOUT by omega)

/-- Witness for C3 at concrete inputs: an immediate 404 gives one attempt
and no sleeps; a hang gives the timeout abort after one attempt; a network
error followed by a 404 stops right after the 404. -/
theorem nonretryable_immediate_C3_witness :
    (fetchWithRetry (fun _ => FetchOutcome.response 404 "Not Found" 0)
        = FetchResult.thrown (httpError 404 "Not Found")
            ⟨0 + 0, false, some (httpError 404 "Not Found"), 0 + 1, []⟩ ∧
      (httpError 404 "Not Found").message = "HTTP " ++ natToString 404 ++ ": " ++ "Not Found") ∧
    fetchWithRetry (fun _ => FetchOutcome.hang)
        = FetchResult.thrown abortError
            ⟨API_TIMEOUT, true, some abortError, 0 + 1, []⟩ ∧
    fetchWithRetry
        (fun i => if i = 0 then FetchOutcome.networkError "net down" 0
          else FetchOutcome.response 404 "Not Found" 0)
        = FetchResult.thrown (httpError 404 "Not Found")
            ⟨0 + outcomeDur (FetchOutcome.networkError "net down" 0) + 2 ^ 0 * 1000 + 0,
             false, some (httpError 404 "Not Found"), 0 + 1 + 1, [] ++ [2 ^ 0 * 1000]⟩ :=
  ⟨nonretryable_immediate_C3.1 (fun _ => FetchOutcome.response 404 "Not Found" 0)
      404 "Not Found" 0 rfl (by decide) (by decide) (by decide),
   nonretryable_immediate_C3.2.1 (fun _ => FetchOutcome.hang) rfl,
   nonretryable_immediate_C3.2.2
      (fun i => if i = 0 then FetchOutcome.networkError "net down" 0
        else FetchOutcome.response 404 "Not Found" 0)
      404 "Not Found" 0
      (show jsIncludes "net down" "HTTP 4" = false by decide)
      rfl (by decide) (by decide) (by decide)⟩

/-- C7 counterexample: the shared timer is cleared as soon as the first
response is delivered, even a 500: after a 500 delivered at t=1s, the two
remaining attempts may take 100s each, the call ends at t=204s — far past
the 10s timeout — with the HTTP 500 error, not a timeout error, and all 3
attempts issued. -/
theorem timeout_entire_sequence_C7_counterexample :
    fetchWithRetry (fun i => if i = 0 then FetchOutcome.response 500 "Internal Server Error" 1000
        else FetchOutcome.response 500 "Internal Server Error" 100000)
      = FetchResult.thrown ⟨"Error", "HTTP 500: Internal Server Error"⟩
          ⟨204000, false, some ⟨"Error", "HTTP 500: Internal Server Error"⟩, 3, [1000, 2000]⟩ ∧
    API_TIMEOUT < 204000 ∧
    (⟨"Error", "HTTP 500: Internal Server Error"⟩ : JsError).name ≠ "AbortError" :=
  ⟨by decide, by decide, by decide⟩

/-- While no attempt ever delivers a response, the armed timer is never
cleared: the loop always terminates with a thrown error, total elapsed time
never exceeds the deadline by more than the last backoff sleep (2s), and any
end state past the deadline can only come from the timeout `AbortError`. -/
theorem fetchLoop_noresponse (o : Nat → FetchOutcome) (hall : ∀ i, isNoResponse (o i)) :
    ∀ (fuel attempt : Nat) (st : RetryState),
      fuel + attempt = MAX_RETRIES + 1 →
      st.timerArmed = true →
      st.now ≤ API_TIMEOUT + 2000 →
      (fuel = 0 → st.now ≤ API_TIMEOUT) →
      ∃ e st2, fetchLoop o fuel attempt st = FetchResult.thrown e st2 ∧
        st2.timerArmed = true ∧ st2.now ≤ API_TIMEOUT + 2000 ∧
        (API_TIMEOUT < st2.now → e = abortError) := by
  have hM : MAX_RETRIES = 2 := rfl
  intro fuel
  induction fuel with
  | zero =>
    intro attempt st _ harm hb h0
    refine ⟨st.lastError.getD requestFailedError, st, ?_, harm, hb, ?_⟩
    · rw [fetchLoop]
    · intro hgt
      exact absurd (h0 rfl) (by omega)
  | succ f ih =>
    intro attempt st hsum harm hb h0
    have hno := hall attempt
    rcases hoa : o attempt with ⟨s2, t2, d2⟩ | ⟨m, d⟩ | _
    · rw [hoa] at hno
      exact hno.elim
    · by_cases hstart : API_TIMEOUT ≤ st.now
      · have hd : doFetch (FetchOutcome.networkError m d) st.now st.timerArmed
            = some (st.now, true, Except.error abortError) := by
          rw [harm, doFetch, if_pos rfl, if_pos hstart]
        refine ⟨abortError, ⟨st.now, true, some abortError, st.fetchCalls + 1, st.sleeps⟩,
          ?_, rfl, hb, fun _ => rfl⟩
        rw [fetchLoop, hoa, hd]
        rfl
      · by_cases hfit : st.now + d ≤ API_TIMEOUT
        · have hd : doFetch (FetchOutcome.networkError m d) st.now st.timerArmed
              = some (st.now + d, true, Except.error ⟨"TypeError", m⟩) := by
            rw [harm, doFetch, if_pos rfl, if_neg (by omega), if_pos hfit]
          by_cases hbreak : jsIncludes m "HTTP 4" = true
          · refine ⟨⟨"TypeError", m⟩,
              ⟨st.now + d, true, some ⟨"TypeError", m⟩, st.fetchCalls + 1, st.sleeps⟩,
              ?_, rfl, show st.now + d ≤ API_TIMEOUT + 2000 by omega, ?_⟩
            · rw [fetchLoop, hoa, hd]
              dsimp only
              rw [if_pos (show (((⟨"TypeError", m⟩ : JsError).name == "AbortError")
                  || jsIncludes (⟨"TypeError", m⟩ : JsError).message "HTTP 4") = true by
                simp [hbreak])]
            · intro hgt
              have hgt2 : API_TIMEOUT < st.now + d := hgt
              exact absurd hfit (by omega)
          · have hm4 : jsIncludes m "HTTP 4" = false := by simpa using hbreak
            have hcond : ¬ ((((⟨"TypeError", m⟩ : JsError).name == "AbortError")
                || jsIncludes (⟨"TypeError", m⟩ : JsError).message "HTTP 4") = true) := by
              simp [hm4]
            by_cases hlt2 : attempt < MAX_RETRIES
            · have hpow : 2 ^ attempt * 1000 ≤ 2000 := by
                have ha2 : attempt < 2 := by omega
                interval_cases attempt <;> decide
              obtain ⟨e, st2, heq, hh1, hh2, hh3⟩ := ih (attempt + 1)
                ⟨st.now + d + 2 ^ attempt * 1000, true, some ⟨"TypeError", m⟩,
                 st.fetchCalls + 1, st.sleeps ++ [2 ^ attempt * 1000]⟩
                (by omega) rfl
                (show st.now + d + 2 ^ attempt * 1000 ≤ API_TIMEOUT + 2000 by omega)
                (fun hf0 => show st.now + d + 2 ^ attempt * 1000 ≤ API_TIMEOUT by omega)
              refine ⟨e, st2, ?_, hh1, hh2, hh3⟩
              rw [fetchLoop, hoa, hd]
              dsimp only
              rw [if_neg hcond, if_pos hlt2]
              exact heq
            · obtain ⟨e, st2, heq, hh1, hh2, hh3⟩ := ih (attempt + 1)
                ⟨st.now + d, true, some ⟨"TypeError", m⟩, st.fetchCalls + 1, st.sleeps⟩
                (by omega) rfl (show st.now + d ≤ API_TIMEOUT + 2000 by omega)
                (fun _ => show st.now + d ≤ API_TIMEOUT by omega)
              refine ⟨e, st2, ?_, hh1, hh2, hh3⟩
              rw [fetchLoop, hoa, hd]
              dsimp only
              rw [if_neg hcond, if_neg hlt2]
              exact heq
        · have hd : doFetch (FetchOutcome.networkError m d) st.now st.timerArmed
              = some (API_TIMEOUT, true, Except.error abortError) := by
            rw [harm, doFetch, if_pos rfl, if_neg (by omega), if_neg hfit]
          refine ⟨abortError,
            ⟨API_TIMEOUT, true, some abortError, st.fetchCalls + 1, st.sleeps⟩,
            ?_, rfl, show API_TIMEOUT ≤ API_TIMEOUT + 2000 by omega, fun _ => rfl⟩
          rw [fetchLoop, hoa, hd]
          rfl
    · by_cases hstart : API_TIMEOUT ≤ st.now
      · have hd : doFetch FetchOutcome.hang st.now st.timerArmed
            = some (st.now, true, Except.error abortError) := by
          rw [harm, doFetch, if_pos rfl, if_pos hstart]
        refine ⟨abortError, ⟨st.now, true, some abortError, st.fetchCalls + 1, st.sleeps⟩,
          ?_, rfl, hb, fun _ => rfl⟩
        rw [fetchLoop, hoa, hd]
        rfl
      · have hd : doFetch FetchOutcome.hang st.now st.timerArmed
            = some (API_TIMEOUT, true, Except.error abortError) := by
          rw [harm, doFetch, if_pos rfl, if_neg hstart]
        refine ⟨abortError,
          ⟨API_TIMEOUT, true, some abortError, st.fetchCalls + 1, st.sleeps⟩,
          ?_, rfl, show API_TIMEOUT ≤ API_TIMEOUT + 2000 by omega, fun _ => rfl⟩
        rw [fetchLoop, hoa, hd]
        rfl

/-- C7 amended: the cancellation signal is armed exactly once per call and
shared by all retries, but it is cleared as soon as any response is
delivered — even a non-ok one (see the counterexample) — so the 10s timeout
bounds the attempt sequence only until the first delivered response. While
no response has been delivered the timer stays armed throughout: the call
always ends in a thrown error, the clock never passes the deadline by more
than the final 2s backoff sleep, and ending past the deadline is possible
only with the timeout `AbortError` (an attempt running at the deadline is
aborted and no further attempt reaches the network). -/
theorem timeout_until_first_response_C7 (o : Nat → FetchOutcome)
    (hall : ∀ i, isNoResponse (o i)) :
    ∃ e st, fetchWithRetry o = FetchResult.thrown e st ∧
      st.timerArmed = true ∧ st.now ≤ API_TIMEOUT + 2000 ∧
      (API_TIMEOUT < st.now → e = abortError) := by
  obtain ⟨e, st2, heq, h1, h2, h3⟩ :=
    fetchLoop_noresponse o hall (MAX_RETRIES + 1) 0 ⟨0, true, none, 0, []⟩
      rfl rfl (by decide) (fun h => absurd h (by decide))
  exact ⟨e, st2, heq, h1, h2, h3⟩

/-- Witness for C7 amended: with every attempt hanging, the call ends at the
deadline with the timeout `AbortError` and the timer still armed. -/
theorem timeout_until_first_response_C7_witness :
    ∃ e st, fetchWithRetry (fun _ => FetchOutcome.hang) = FetchResult.thrown e st ∧
      st.timerArmed = true ∧ st.now ≤ API_TIMEOUT + 2000 ∧
      (API_TIMEOUT < st.now → e = abortError) :=
  timeout_until_first_response_C7 (fun _ => FetchOutcome.hang) (fun _ => trivial)

/-- A cache miss followed by a mock-provider hit returns and caches the
fixture payload without touching the network. -/
theorem queryCore_mock_success (st : Settings) (c : Cache) (now : Nat)
    (endpoint res : String) (net : Except JsError JsValue) (d : JsValue)
    (hmiss : jsTruthy (getCachedData c now (getCacheKey endpoint)).1 = false)
    (hm : shouldUseMocks st = true)
    (hmock : getMockData endpoint = Except.ok d) :
    queryCore st c now endpoint res net
      = ⟨Except.ok d,
         setCachedData (getCachedData c now (getCacheKey endpoint)).2 (getCacheKey endpoint) d
           now, true, false, false⟩ := by
  simp [queryCore, hmiss, hm, hmock]

/-- Routing of the mock provider on a startups endpoint with a slash-free
identifier: the path `/subtrends/{id}/startups?...` always matches the
`/subtrends` substring test first, so the two subtrend identifiers are
checked before the startup identifiers ever are. -/
theorem getMockData_startupsEndpoint (id : String) (lim : Nat)
    (h : ('/' : Char) ∉ id.data) :
    getMockData (startupsEndpoint id lim)
      = (if (id == "defense-tech") = true then Except.ok mockSubtrendsDefenseTech
        else if (id == "climate-solutions") = true then Except.ok mockSubtrendsClimateSolutions
        else if (id == "military-drones") = true then Except.ok mockStartupsMilitaryDrones
        else if (id == "carbon-capture") = true then Except.ok mockStartupsCarbon
        else Except.error ⟨"Error",
          "Mock data not found for endpoint: " ++ startupsEndpoint id lim⟩) := by
  simp only [getMockData, not_startsWith_trends_startupsEndpoint,
    includes_subtrends_startupsEndpoint, includes_startups_startupsEndpoint,
    pathSeg2_startupsEndpoint id lim h, Bool.false_and, Bool.true_and,
    Bool.false_eq_true, if_false]

/-- C6 counterexample: `fetchStartups("defense-tech", 3)` — an identifier
outside the registered startups set {military-drones, carbon-capture} — does
not fail with the not-found error: the startups path contains `/subtrends`,
so the subtrends routing matches first and the call resolves to the
defense-tech SUBTRENDS fixture. -/
theorem mock_identifier_routing_C6_counterexample :
    startupsEndpoint "defense-tech" 3 = "/subtrends/defense-tech/startups?limit=3" ∧
    getMockData (startupsEndpoint "defense-tech" 3) = Except.ok mockSubtrendsDefenseTech ∧
    (fetchStartups mockSettings [] 0 "defense-tech" 3
        (Except.error ⟨"TypeError", "offline"⟩)).result
      = Except.ok mockSubtrendsDefenseTech :=
  ⟨rfl, rfl, rfl⟩

/-- C6 amended: in mock mode, for slash-free identifiers not containing
`limit=3`: `fetchSubtrends` resolves exactly defense-tech and
climate-solutions and fails with the wrapped not-found error for every other
identifier; `fetchStartups` resolves military-drones and carbon-capture to
their startup fixtures, but ALSO resolves defense-tech and
climate-solutions — to the corresponding subtrends fixture sets, because the
startups path matches the `/subtrends` routing test first — and fails with
the wrapped not-found error for every identifier outside those four. -/
theorem mock_identifier_routing_C6 :
    (∀ net, (fetchSubtrends mockSettings [] 0 "defense-tech" net).result
        = Except.ok mockSubtrendsDefenseTech) ∧
    (∀ net, (fetchSubtrends mockSettings [] 0 "climate-solutions" net).result
        = Except.ok mockSubtrendsClimateSolutions) ∧
    (∀ id : String, ('/' : Char) ∉ id.data → jsIncludes id "limit=3" = false →
      id ≠ "defense-tech" → id ≠ "climate-solutions" → ∀ net,
      (fetchSubtrends mockSettings [] 0 id net).result
        = Except.error ⟨"Error", "Failed to fetch subtrends: "
            ++ ("Mock data not found for endpoint: " ++ subtrendsEndpoint id)⟩) ∧
    (∀ lim net, (fetchStartups mockSettings [] 0 "military-drones" lim net).result
        = Except.ok mockStartupsMilitaryDrones) ∧
    (∀ lim net, (fetchStartups mockSettings [] 0 "carbon-capture" lim net).result
        = Except.ok mockStartupsCarbon) ∧
    (∀ lim net, (fetchStartups mockSettings [] 0 "defense-tech" lim net).result
        = Except.ok mockSubtrendsDefenseTech) ∧
    (∀ lim net, (fetchStartups mockSettings [] 0 "climate-solutions" lim net).result
        = Except.ok mockSubtrendsClimateSolutions) ∧
    (∀ id : String, ('/' : Char) ∉ id.data →
      id ≠ "military-drones" → id ≠ "carbon-capture" →
      id ≠ "defense-tech" → id ≠ "climate-solutions" → ∀ lim net,
      (fetchStartups mockSettings [] 0 id lim net).result
        = Except.error ⟨"Error", "Failed to fetch startups: "
            ++ ("Mock data not found for endpoint: " ++ startupsEndpoint id lim)⟩) := by
  have hstart2 : ∀ (id : String) (lim : Nat), ('/' : Char) ∉ id.data →
      ∀ d, getMockData (startupsEndpoint id lim) = Except.ok d →
      ∀ net, (fetchStartups mockSettings [] 0 id lim net).result = Except.ok d := by
    intro id lim hslash d hmock net
    rw [fetchStartups,
      queryCore_mock_success mockSettings [] 0 (startupsEndpoint id lim) "startups" net d
        rfl rfl hmock]
  refine ⟨fun net => rfl, fun net => rfl, ?_, ?_, ?_, ?_, ?_, ?_⟩
  · intro id hslash hlimit hned hnec net
    by_cases hm1 : id = "military-drones"
    · subst hm1; rfl
    by_cases hm2 : id = "carbon-capture"
    · subst hm2; rfl
    have h1 : (id == "defense-tech") = false := beq_eq_false_iff_ne.mpr hned
    have h2 : (id == "climate-solutions") = false := beq_eq_false_iff_ne.mpr hnec
    have h3 : (id == "military-drones") = false := beq_eq_false_iff_ne.mpr hm1
    have h4 : (id == "carbon-capture") = false := beq_eq_false_iff_ne.mpr hm2
    have hmock : getMockData (subtrendsEndpoint id)
        = Except.error ⟨"Error", "Mock data not found for endpoint: " ++ subtrendsEndpoint id⟩ := by
      simp only [getMockData, startsWith_trends_subtrendsEndpoint,
        not_includes_limit3_subtrendsEndpoint id hlimit, subtrendsEndpoint_ne_trends,
        pathSeg2_subtrendsEndpoint id hslash, h1, h2, h3, h4, Bool.false_or,
        Bool.and_false, Bool.true_and, Bool.false_eq_true, if_false]
    rw [fetchSubtrends,
      queryCore_mock_failure mockSettings [] 0 (subtrendsEndpoint id) "subtrends" net
        ⟨"Error", "Mock data not found for endpoint: " ++ subtrendsEndpoint id⟩
        rfl rfl hmock]
    rfl
  · intro lim net
    exact hstart2 "military-drones" lim (by decide) mockStartupsMilitaryDrones
      (by rw [getMockData_startupsEndpoint _ _ (by decide)]; rfl) net
  · intro lim net
    exact hstart2 "carbon-capture" lim (by decide) mockStartupsCarbon
      (by rw [getMockData_startupsEndpoint _ _ (by decide)]; rfl) net
  · intro lim net
    exact hstart2 "defense-tech" lim (by decide) mockSubtrendsDefenseTech
      (by rw [getMockData_startupsEndpoint _ _ (by decide)]; rfl) net
  · intro lim net
    exact hstart2 "climate-solutions" lim (by decide) mockSubtrendsClimateSolutions
      (by rw [getMockData_startupsEndpoint _ _ (by decide)]; rfl) net
  · intro id hslash hn1 hn2 hn3 hn4 lim net
    have h1 : (id == "defense-tech") = false := beq_eq_false_iff_ne.mpr hn3
    have h2 : (id == "climate-solutions") = false := beq_eq_false_iff_ne.mpr hn4
    have h3 : (id == "military-drones") = false := beq_eq_false_iff_ne.mpr hn1
    have h4 : (id == "carbon-capture") = false := beq_eq_false_iff_ne.mpr hn2
    have hmock : getMockData (startupsEndpoint id lim)
        = Except.error
            ⟨"Error", "Mock data not found for endpoint: " ++ startupsEndpoint id lim⟩ := by
      rw [getMockData_startupsEndpoint id lim hslash]
      simp only [h1, h2, h3, h4, Bool.false_eq_true, if_false]
    rw [fetchStartups,
      queryCore_mock_failure mockSettings [] 0 (startupsEndpoint id lim) "startups" net
        ⟨"Error", "Mock data not found for endpoint: " ++ startupsEndpoint id lim⟩
        rfl rfl hmock]
    rfl

/-- Witness for C6 amended: the unregistered identifier `unknown-id` fails
with the wrapped not-found error for both subtrends and startups, while
`defense-tech` resolves for subtrends. -/
theorem mock_identifier_routing_C6_witness :
    (fetchSubtrends mockSettings [] 0 "defense-tech"
        (Except.error ⟨"TypeError", "offline"⟩)).result
      = Except.ok mockSubtrendsDefenseTech ∧
    (fetchSubtrends mockSettings [] 0 "unknown-id"
        (Except.error ⟨"TypeError", "offline"⟩)).result
      = Except.error ⟨"Error", "Failed to fetch subtrends: "
          ++ ("Mock data not found for endpoint: " ++ subtrendsEndpoint "unknown-id")⟩ ∧
    (fetchStartups mockSettings [] 0 "unknown-id" 3
        (Except.error ⟨"TypeError", "offline"⟩)).result
      = Except.error ⟨"Error", "Failed to fetch startups: "
          ++ ("Mock data not found for endpoint: " ++ startupsEndpoint "unknown-id" 3)⟩ :=
  ⟨mock_identifier_routing_C6.1 (Except.error ⟨"TypeError", "offline"⟩),
   mock_identifier_routing_C6.2.2.1 "unknown-id" (by decide) (by decide) (by decide)
      (by decide) (Except.error ⟨"TypeError", "offline"⟩),
   mock_identifier_routing_C6.2.2.2.2.2.2.2 "unknown-id" (by decide) (by decide) (by decide)
      (by decide) (by decide) 3 (Except.error ⟨"TypeError", "offline"⟩)⟩

end TrendScouter
